import Mathlib

/-!
Verification of the alert-driven workflow orchestration core of the
ProActive Mobility Intelligence backend (`backend/agents/`).

The Python agents are shallowly embedded: dictionaries become structures,
`datetime` values become rationals counted in hours since an epoch whose
day 0 is a Monday, floats become rationals, in-place mutation becomes
explicit state passing, and a raised exception becomes `Except.error`.
Database reads and the sub-agent calls made by the orchestrator are
parameters (`MasterEnv`), so the theorems quantify over what those
collaborators may return.
-/

namespace PMI

/-! ### String utilities

Python's `needle in haystack` substring test, on lists of characters. -/

/-- `containsList n h = true` iff `n` occurs as a contiguous substring of `h`
(Python `n in h`). -/
def containsList (n : List Char) : List Char → Bool
  | [] => n.isEmpty
  | c :: t => n.isPrefixOf (c :: t) || containsList n t

/-- Python `pat in hay` on strings. -/
def strContains (hay pat : String) : Bool :=
  containsList pat.data hay.data

/-- Python `s.lower()`: lowercase every character. -/
def strLower (s : String) : String :=
  ⟨s.data.map Char.toLower⟩

/-! ### Association-list registries

The agents keep `Dict[str, ...]` registries (`active_workflows`,
`active_conversations`).  They are modelled as association lists with
Python-dict update semantics (assignment replaces in place, new keys are
appended). -/

/-- Dictionary lookup `d.get(k)` / `k in d`. -/
def alistGet {α : Type} (k : String) : List (String × α) → Option α
  | [] => none
  | (k', v) :: t => if k = k' then some v else alistGet k t

/-- Dictionary assignment `d[k] = v`. -/
def alistInsert {α : Type} (k : String) (v : α) : List (String × α) → List (String × α)
  | [] => [(k, v)]
  | (k', v') :: t => if k = k' then (k, v) :: t else (k', v') :: alistInsert k v t

/-- Dictionary deletion `del d[k]`. -/
def alistErase {α : Type} (k : String) : List (String × α) → List (String × α)
  | [] => []
  | (k', v') :: t => if k = k' then t else (k', v') :: alistErase k t

deriving instance DecidableEq for Except

/-- Decimal rendering of a rational, used where the Python code embeds a
`datetime.utcnow().timestamp()` into an id string; all that matters is that
distinct rationals render distinctly, which holds for `num/den` form. -/
def ratStr (q : ℚ) : String :=
  toString q.num ++ "/" ++ toString q.den

/-! ### Diagnosis agent (`backend/agents/diagnosis_agent.py`)

Floats are embedded as rationals (`0.2` becomes `1/5`).  The
`random.uniform` draws for per-component downtime and cost are supplied by
a `rand` parameter giving, per component index, the (downtime, cost) pair
drawn. -/

/-- Diagnostic information for a component (`ComponentDiagnostic`). -/
structure ComponentDiagnostic where
  component_name : String
  failure_probability : ℚ
  failure_mode : String
  symptoms : List String
  repair_actions : List String
  estimated_downtime_hours : ℚ
  estimated_cost : ℚ
  urgency : String
deriving DecidableEq, Repr

/-- One entry of the `component_rules` table. -/
structure CategoryRule where
  components : List String
  symptoms : List String
  failure_modes : List (String × String)
  repair_actions : List (String × List String)
  cost_range : ℚ × ℚ
  downtime_hours : ℚ × ℚ
deriving DecidableEq, Repr

/-- `DiagnosisAgent._initialize_component_rules`. -/
def componentRules : List (String × CategoryRule) :=
  [ ("engine_overheating",
     { components := ["Thermostat", "Water Pump", "Radiator", "Cooling Fan"]
       symptoms := ["High engine temperature", "Elevated coolant temperature"]
       failure_modes :=
         [ ("Thermostat", "Stuck closed, restricting coolant flow")
         , ("Water Pump", "Impeller damage or bearing failure")
         , ("Radiator", "Clogged cores or external blockage")
         , ("Cooling Fan", "Motor failure or electrical issue") ]
       repair_actions :=
         [ ("Thermostat", ["Replace thermostat", "Flush cooling system"])
         , ("Water Pump", ["Replace water pump", "Replace timing belt if applicable", "Refill coolant"])
         , ("Radiator", ["Flush and clean radiator", "Replace if damaged", "Check hoses"])
         , ("Cooling Fan", ["Replace fan motor", "Check fan relay and fuses", "Inspect wiring"]) ]
       cost_range := (200, 1500)
       downtime_hours := (2, 6) })
  , ("low_oil_pressure",
     { components := ["Oil Pump", "Engine Bearings", "Oil Filter", "PCV Valve"]
       symptoms := ["Low oil pressure reading", "Engine noise"]
       failure_modes :=
         [ ("Oil Pump", "Worn gears or pickup screen blockage")
         , ("Engine Bearings", "Wear or damage causing oil leakage")
         , ("Oil Filter", "Clogged filter restricting flow")
         , ("PCV Valve", "Stuck valve affecting crankcase pressure") ]
       repair_actions :=
         [ ("Oil Pump", ["Replace oil pump", "Clean oil pickup screen", "Change oil and filter"])
         , ("Engine Bearings", ["Engine teardown and bearing replacement", "Possible engine rebuild"])
         , ("Oil Filter", ["Replace oil filter", "Change engine oil", "Check for sludge"])
         , ("PCV Valve", ["Replace PCV valve", "Clean breather system"]) ]
       cost_range := (150, 3500)
       downtime_hours := (3, 24) })
  , ("high_vibration",
     { components := ["Engine Mounts", "Wheel Balance", "Drive Shaft", "Brake Rotors"]
       symptoms := ["Excessive vibration", "Unusual shaking"]
       failure_modes :=
         [ ("Engine Mounts", "Worn or broken mounts allowing excess movement")
         , ("Wheel Balance", "Unbalanced wheels or damaged tires")
         , ("Drive Shaft", "Bent shaft or worn U-joints")
         , ("Brake Rotors", "Warped rotors causing pedal vibration") ]
       repair_actions :=
         [ ("Engine Mounts", ["Replace worn engine mounts", "Inspect transmission mounts"])
         , ("Wheel Balance", ["Balance and rotate tires", "Check for tire damage", "Inspect suspension"])
         , ("Drive Shaft", ["Replace drive shaft", "Replace U-joints", "Check CV joints"])
         , ("Brake Rotors", ["Resurface or replace rotors", "Replace brake pads", "Inspect calipers"]) ]
       cost_range := (100, 1200)
       downtime_hours := (1, 4) })
  , ("battery_degradation",
     { components := ["Battery", "Alternator", "Voltage Regulator", "Battery Cables"]
       symptoms := ["Low battery voltage", "Starting difficulties"]
       failure_modes :=
         [ ("Battery", "Cell degradation or sulfation")
         , ("Alternator", "Diode failure or bearing wear")
         , ("Voltage Regulator", "Improper charging voltage")
         , ("Battery Cables", "Corrosion or loose connections") ]
       repair_actions :=
         [ ("Battery", ["Load test battery", "Replace if failed", "Check charging system"])
         , ("Alternator", ["Test alternator output", "Replace alternator", "Replace serpentine belt"])
         , ("Voltage Regulator", ["Replace voltage regulator", "Check wiring harness"])
         , ("Battery Cables", ["Clean terminals", "Replace corroded cables", "Apply protective coating"]) ]
       cost_range := (100, 800)
       downtime_hours := (1, 3) })
  , ("fuel_system",
     { components := ["Fuel Pump", "Fuel Filter", "Fuel Injectors", "Fuel Pressure Regulator"]
       symptoms := ["Poor fuel economy", "Engine hesitation", "Loss of power"]
       failure_modes :=
         [ ("Fuel Pump", "Pump motor failure or clogged strainer")
         , ("Fuel Filter", "Restriction from contamination")
         , ("Fuel Injectors", "Clogging or electrical failure")
         , ("Fuel Pressure Regulator", "Stuck valve or diaphragm leak") ]
       repair_actions :=
         [ ("Fuel Pump", ["Replace fuel pump assembly", "Clean fuel tank", "Replace fuel filter"])
         , ("Fuel Filter", ["Replace fuel filter", "Drain fuel tank if contaminated"])
         , ("Fuel Injectors", ["Clean injectors", "Replace failed injectors", "Check fuel pressure"])
         , ("Fuel Pressure Regulator", ["Replace regulator", "Check vacuum lines"]) ]
       cost_range := (150, 1500)
       downtime_hours := (2, 6) }) ]

/-- The alert/prediction payload (`AlertEvent`).  `publish_alert` emits the
fields below; the `urgency` key is optional because `process_alert` reads it
with `alert.get('urgency', 'routine')` and the publisher does not set it. -/
structure Alert where
  vehicle_id : ℕ
  vin : String
  timestamp : ℚ
  severity : String
  urgency : Option String
  failure_probability : ℚ
  explanation : String
  feature_importance : String
deriving DecidableEq, Repr

/-- `DiagnosisAgent._identify_issue_category`: first keyword match wins,
default `engine_overheating`.  The explanation is lowercased, the
`str(feature_importance)` rendering is searched as-is. -/
def identifyIssueCategory (explanation : String) (featureStr : String) : String :=
  let explanationLower := strLower explanation
  if strContains explanationLower "temperature" || strContains featureStr "engine_temperature" then
    "engine_overheating"
  else if strContains explanationLower "oil" || strContains featureStr "oil_pressure" then
    "low_oil_pressure"
  else if strContains explanationLower "vibration" || strContains featureStr "vibration_level" then
    "high_vibration"
  else if strContains explanationLower "battery" || strContains featureStr "battery_voltage" then
    "battery_degradation"
  else if strContains explanationLower "fuel" then
    "fuel_system"
  else
    "engine_overheating"

/-- `DiagnosisAgent._diagnose_components`, given the looked-up rule entry.
`rand i` is the `(downtime, cost)` pair drawn by `random.uniform` for the
component at generation index `i`; `0.2` is the rational `1/5`. -/
def diagnoseFromRule (r : CategoryRule) (failureProbability : ℚ) (severity : String)
    (rand : ℕ → ℚ × ℚ) : List ComponentDiagnostic :=
  let num := if severity = "low" ∨ severity = "medium" then 1 else min 3 r.components.length
  let comps := (r.components.take num).enum.map fun p =>
    { component_name := p.2
      failure_probability := failureProbability * (1 - (p.1 : ℚ) * (1/5))
      failure_mode := ((r.failure_modes.lookup p.2).getD "")
      symptoms := r.symptoms
      repair_actions := ((r.repair_actions.lookup p.2).getD [])
      estimated_downtime_hours := (rand p.1).1
      estimated_cost := (rand p.1).2
      urgency := severity }
  -- `components.sort(key=lambda x: x.failure_probability, reverse=True)`:
  -- a stable descending sort.
  List.insertionSort (fun a b => b.failure_probability ≤ a.failure_probability) comps

/-- `DiagnosisAgent._diagnose_components`. -/
def diagnoseComponents (issueCategory : String) (failureProbability : ℚ) (severity : String)
    (rand : ℕ → ℚ × ℚ) : List ComponentDiagnostic :=
  match alistGet issueCategory componentRules with
  | none => []
  | some r => diagnoseFromRule r failureProbability severity rand

/-- `DiagnosisAgent._determine_urgency` (the components argument is unused
by the source as well). -/
def determineUrgency (severity : String) (_components : List ComponentDiagnostic) : String :=
  if severity = "critical" then "immediate"
  else if severity = "high" then "urgent"
  else if severity = "medium" then "soon"
  else "routine"

/-- `DiagnosisAgent._generate_assessment`. -/
def generateAssessment (components : List ComponentDiagnostic) (severity : String) : String :=
  match components with
  | [] => "Unable to determine specific component failure."
  | primary :: rest =>
    let base := "Primary concern: " ++ primary.component_name ++ " - " ++ primary.failure_mode ++ ". "
    let base :=
      if rest.isEmpty then base
      else base ++ "Related components that may need attention: "
        ++ String.intercalate ", " (rest.map (·.component_name)) ++ ". "
    if severity = "critical" ∨ severity = "high" then
      base ++ "Immediate service recommended to prevent further damage."
    else
      base ++ "Schedule service at earliest convenience."

/-- `DiagnosisAgent._recommend_action`. -/
def recommendAction (severity : String) (_components : List ComponentDiagnostic) : String :=
  if severity = "critical" then "Stop driving immediately. Arrange for towing to service center."
  else if severity = "high" then "Schedule service within 24-48 hours. Avoid long trips."
  else if severity = "medium" then "Schedule service within the next week."
  else "Include in next routine maintenance visit."

/-- The diagnostic report returned by `DiagnosisAgent.diagnose`. -/
structure DiagnosticReport where
  vehicle_id : ℕ
  vin : String
  issue_category : String
  severity : String
  primary_component : Option ComponentDiagnostic
  related_components : List ComponentDiagnostic
  total_estimated_cost : ℚ
  total_estimated_downtime_hours : ℚ
  urgency : String
  assessment : String
  recommended_action : String
deriving DecidableEq, Repr

/-- `DiagnosisAgent.diagnose`. -/
def diagnose (rand : ℕ → ℚ × ℚ) (prediction : Alert) : DiagnosticReport :=
  let severity := prediction.severity
  let failureProbability := prediction.failure_probability
  let issueCategory := identifyIssueCategory prediction.explanation prediction.feature_importance
  let components := diagnoseComponents issueCategory failureProbability severity rand
  { vehicle_id := prediction.vehicle_id
    vin := prediction.vin
    issue_category := issueCategory
    severity := severity
    primary_component := components.head?
    related_components := components.tail
    total_estimated_cost := (components.map (·.estimated_cost)).sum
    total_estimated_downtime_hours :=
      components.foldr (fun c m => max c.estimated_downtime_hours m) 0
    urgency := determineUrgency severity components
    assessment := generateAssessment components severity
    recommended_action := recommendAction severity components }

/-! ### Customer engagement agent (`backend/agents/customer_engagement_agent.py`)

Result dictionaries are embedded as an action tag plus the optionally
selected slot (the scripted message texts carry no logic).  A raised
exception is `Except.error`; the `{'error': ...}` dictionaries the agent
returns normally are the `CEResult.fail` constructor. -/

/-- `ConversationState`. -/
inductive ConversationState where
  | initiated
  | greeting
  | presenting_diagnosis
  | proposing_appointment
  | awaiting_response
  | confirming_appointment
  | declined
  | completed
  | escalated
deriving DecidableEq, Repr

/-- `CustomerResponse`. -/
inductive CustomerResponse where
  | accept
  | decline
  | request_alternative
  | request_info
  | unclear
  | request_human
deriving DecidableEq, Repr

/-- An appointment slot dictionary produced by the scheduling agent. -/
structure Slot where
  start_time : ℚ
  end_time : ℚ
  duration_hours : ℚ
  service_center_id : ℕ
  service_center_name : String
  available_capacity : ℤ
deriving DecidableEq, Repr

/-- `ConversationContext`. -/
structure ConversationContext where
  customer_id : ℕ
  vehicle_id : ℕ
  diagnosis : DiagnosticReport
  state : ConversationState
  timestamp : ℚ
  proposed_slots : List Slot
  selected_slot : Option Slot
  consent_recorded : Bool
  turn_count : ℕ
  responses : List String
deriving DecidableEq, Repr

def acceptancePatterns : List String :=
  ["yes", "yeah", "sure", "ok", "okay", "accept", "agree",
   "sounds good", "that works", "perfect", "confirm"]

def declinePatterns : List String :=
  ["no", "nope", "not now", "decline", "cancel", "not interested",
   "maybe later", "not convenient"]

def alternativePatterns : List String :=
  ["different time", "another slot", "other options", "different day",
   "earlier", "later", "weekend", "weekday"]

def infoPatterns : List String :=
  ["what", "why", "how", "tell me more", "explain", "details",
   "cost", "how long", "warranty"]

def humanPatterns : List String :=
  ["speak to someone", "human", "person", "representative", "agent",
   "talk to", "transfer"]

/-- `CustomerEngagementAgent._classify_response`: keyword lists checked in
priority order on the lowercased input. -/
def classifyResponse (userInput : String) : CustomerResponse :=
  let inputLower := strLower userInput
  if humanPatterns.any (fun p => strContains inputLower p) then .request_human
  else if acceptancePatterns.any (fun p => strContains inputLower p) then .accept
  else if declinePatterns.any (fun p => strContains inputLower p) then .decline
  else if alternativePatterns.any (fun p => strContains inputLower p) then .request_alternative
  else if infoPatterns.any (fun p => strContains inputLower p) then .request_info
  else .unclear

/-- The ordinal-word list hard-coded inside `_extract_slot_selection`. -/
def ordinalWords : List String := ["first", "second", "third"]

/-- The `for i in range(1, num_slots + 1)` loop of
`_extract_slot_selection`.  The third disjunct of the Python condition
indexes `['first', 'second', 'third'][i-1]` before testing membership, so
for `i ≥ 4` (reached only when the first two disjuncts are false) the
iteration raises `IndexError`. -/
def extractLoop (inputLower : String) : List ℕ → Except String (Option ℕ)
  | [] => .ok none
  | i :: rest =>
    if strContains inputLower ("option " ++ toString i) then .ok (some (i - 1))
    else if strContains inputLower (toString i) then .ok (some (i - 1))
    else
      match ordinalWords.get? (i - 1) with
      | none => .error "IndexError: list index out of range"
      | some w =>
        if strContains inputLower w then .ok (some (i - 1))
        else extractLoop inputLower rest

/-- `CustomerEngagementAgent._extract_slot_selection`. -/
def extractSlotSelection (userInput : String) (numSlots : ℕ) : Except String (Option ℕ) := do
  let inputLower := strLower userInput
  match ← extractLoop inputLower ((List.range numSlots).map (· + 1)) with
  | some idx => pure (some idx)
  | none =>
    if ["yes", "sure", "ok", "first"].any (fun w => strContains inputLower w) then
      pure (some 0)
    else
      pure none

/-- Processing result: either an `{'error': ...}` dictionary (`fail`) or a
normal result dictionary with its `action` key and, for appointment
confirmation, the `selected_slot` (`act`). -/
inductive CEResult where
  | fail (msg : String)
  | act (action : String) (selected : Option Slot)
deriving DecidableEq, Repr

/-- `CustomerEngagementAgent._handle_greeting_response`. -/
def handleGreetingResponse (ctx : ConversationContext) (rt : CustomerResponse) :
    ConversationContext × CEResult :=
  if rt = .request_info then
    ({ctx with state := .presenting_diagnosis}, .act "provide_diagnosis" none)
  else
    ({ctx with state := .proposing_appointment}, .act "propose_appointment" none)

/-- `CustomerEngagementAgent._handle_diagnosis_response`. -/
def handleDiagnosisResponse (ctx : ConversationContext) (rt : CustomerResponse) :
    ConversationContext × CEResult :=
  if rt = .accept then
    ({ctx with state := .proposing_appointment}, .act "propose_appointment" none)
  else if rt = .decline then
    ({ctx with state := .declined}, .act "acknowledge_decline" none)
  else
    (ctx, .act "clarify" none)

/-- `CustomerEngagementAgent._handle_appointment_response`. -/
def handleAppointmentResponse (ctx : ConversationContext) (rt : CustomerResponse)
    (userInput : String) : Except String (ConversationContext × CEResult) :=
  if rt = .accept then do
    let slotIdx ← extractSlotSelection userInput ctx.proposed_slots.length
    match slotIdx with
    | some idx =>
      -- `if slot_index is not None and 0 <= slot_index < len(...)`
      match ctx.proposed_slots.get? idx with
      | some slot =>
        .ok ({ctx with selected_slot := some slot, state := .confirming_appointment,
                       consent_recorded := true},
             .act "confirm_appointment" (some slot))
      | none => .ok (ctx, .act "clarify_slot" none)
    | none => .ok (ctx, .act "clarify_slot" none)
  else if rt = .decline then
    .ok ({ctx with state := .declined}, .act "acknowledge_decline" none)
  else if rt = .request_alternative then
    .ok (ctx, .act "request_alternative_slots" none)
  else
    .ok (ctx, .act "clarify" none)

/-- `CustomerEngagementAgent._handle_response`. -/
def handleResponse (ctx : ConversationContext) (rt : CustomerResponse) (userInput : String) :
    Except String (ConversationContext × CEResult) :=
  if rt = .request_human then
    .ok ({ctx with state := .escalated}, .act "escalate_to_human" none)
  else if rt = .unclear then
    if 3 < ctx.turn_count then
      .ok ({ctx with state := .escalated}, .act "escalate_to_human" none)
    else
      .ok (ctx, .act "clarify" none)
  else
    match ctx.state with
    | .greeting => .ok (handleGreetingResponse ctx rt)
    | .presenting_diagnosis => .ok (handleDiagnosisResponse ctx rt)
    | .proposing_appointment => handleAppointmentResponse ctx rt userInput
    | _ => .ok (ctx, .fail "Invalid conversation state")

/-- The first two mutations of `process_response`: `context.turn_count += 1`
and `context.responses.append(user_input)`. -/
def bumpTurn (ctx : ConversationContext) (userInput : String) : ConversationContext :=
  {ctx with turn_count := ctx.turn_count + 1, responses := ctx.responses ++ [userInput]}

/-- `CustomerEngagementAgent.process_response`, on the conversation context
itself (the registry lookup is `processResponseReg`). -/
def processResponseCtx (ctx : ConversationContext) (userInput : String) :
    Except String (ConversationContext × CEResult) :=
  let ctx := bumpTurn ctx userInput
  handleResponse ctx (classifyResponse userInput) userInput

/-- `CustomerEngagementAgent.process_response`: registry lookup plus
per-context processing.  `conversation_id` is optional because the
orchestrator passes a possibly-`None` id straight through. -/
def processResponseReg (convs : List (String × ConversationContext))
    (conversationId : Option String) (userInput : String) :
    Except String (List (String × ConversationContext) × CEResult) :=
  match conversationId with
  | none => .ok (convs, .fail "Conversation not found")
  | some cid =>
    match alistGet cid convs with
    | none => .ok (convs, .fail "Conversation not found")
    | some ctx => do
      let (ctx', r) ← processResponseCtx ctx userInput
      .ok (alistInsert cid ctx' convs, r)

/-- Customer and vehicle info dictionaries assembled by the orchestrator. -/
structure CustomerInfo where
  customer_id : ℕ
  name : String
  email : String
  phone : String
deriving DecidableEq, Repr

structure VehicleInfo where
  vehicle_id : ℕ
  vin : String
  make : String
  model : String
  year : ℕ
deriving DecidableEq, Repr

/-- `CustomerEngagementAgent.initiate_contact`: creates the conversation
context (state `GREETING` once the call is placed) under a fresh id built
from the customer id and the current timestamp, and returns the id. -/
def initiateContact (now : ℚ) (customerInfo : CustomerInfo) (vehicleInfo : VehicleInfo)
    (diag : DiagnosticReport) (proposedSlots : List Slot)
    (convs : List (String × ConversationContext)) :
    String × List (String × ConversationContext) :=
  let conversationId := "conv_" ++ toString customerInfo.customer_id ++ "_" ++ ratStr now
  let ctx : ConversationContext :=
    { customer_id := customerInfo.customer_id
      vehicle_id := vehicleInfo.vehicle_id
      diagnosis := diag
      state := .greeting
      timestamp := now
      proposed_slots := proposedSlots
      selected_slot := none
      consent_recorded := false
      turn_count := 0
      responses := [] }
  (conversationId, alistInsert conversationId ctx convs)

/-! ### Scheduling agent (`backend/agents/scheduling_agent.py`)

Datetimes are rationals counted in hours; a day is 24 hours, day `d`
spans `[24d, 24d+24)`, and day 0 is taken to be a Monday so that
`weekday()` is the day index modulo 7 with Monday = 0. -/

/-- A service center row. -/
structure ServiceCenter where
  service_center_id : ℕ
  name : String
  location : String
  phone : String
  capacity : ℕ
deriving DecidableEq, Repr

/-- A persisted appointment row. -/
structure Appointment where
  appointment_id : ℕ
  customer_id : ℕ
  vehicle_id : ℕ
  service_center_id : ℕ
  appointment_time : ℚ
  status : String
  service_type : String
  estimated_duration_hours : ℚ
  estimated_cost : ℚ
  notes : String
  created_at : ℚ
deriving DecidableEq, Repr

/-- The `{'appointment_time', 'estimated_duration_hours'}` projection that
`_get_existing_appointments` hands to slot generation. -/
structure BookedInterval where
  appointment_time : ℚ
  estimated_duration_hours : ℚ
deriving DecidableEq, Repr

/-- `SchedulingAgent._get_existing_appointments`: bookings of the center in
the next 30 days with status scheduled or confirmed; a null-or-zero stored
duration is replaced by 2 (Python `appt.estimated_duration_hours or 2`). -/
def getExistingBookings (now : ℚ) (serviceCenterId : ℕ) (db : List Appointment) :
    List BookedInterval :=
  (db.filter fun a =>
      a.service_center_id = serviceCenterId ∧
      now ≤ a.appointment_time ∧ a.appointment_time ≤ now + 720 ∧
      (a.status = "scheduled" ∨ a.status = "confirmed")).map fun (a : Appointment) =>
    ({ appointment_time := a.appointment_time
       estimated_duration_hours :=
         if a.estimated_duration_hours = 0 then 2 else a.estimated_duration_hours } :
      BookedInterval)

/-- `SchedulingAgent._count_overlapping_appointments`: bookings whose
`[start, start+duration)` interval overlaps `[slotStart, slotEnd)`. -/
def countOverlappingAppointments (slotStart slotEnd : ℚ)
    (existing : List BookedInterval) : ℕ :=
  (existing.filter fun a =>
    slotStart < a.appointment_time + a.estimated_duration_hours ∧
    slotEnd > a.appointment_time).length

/-- `SchedulingAgent._has_conflict`. -/
def hasConflict (slotStart slotEnd : ℚ) (existing : List BookedInterval)
    (capacity : ℕ) : Bool :=
  capacity ≤ countOverlappingAppointments slotStart slotEnd existing

/-- Search window dictionary of `_get_search_window`. -/
structure SearchWindow where
  start : ℚ
  endTime : ℚ
  priority : String
deriving DecidableEq, Repr

/-- `SchedulingAgent._get_search_window` (the start date is the resolved
`preferred_date or datetime.now()` value). -/
def getSearchWindow (urgency : String) (startDate : ℚ) : SearchWindow :=
  if urgency = "immediate" then
    { start := startDate, endTime := startDate + 24, priority := "critical" }
  else if urgency = "urgent" then
    { start := startDate, endTime := startDate + 3 * 24, priority := "high" }
  else if urgency = "soon" then
    { start := startDate, endTime := startDate + 7 * 24, priority := "medium" }
  else
    { start := startDate, endTime := startDate + 14 * 24, priority := "low" }

/-- Business hours 8:00 to 18:00 generate hour offsets 8..17. -/
def businessHoursList : List ℕ := (List.range 10).map (· + 8)

/-- `weekday()` of the day containing hour `t`: day index modulo 7, day 0
being a Monday. -/
def weekdayOf (t : ℚ) : ℤ :=
  (⌊t / 24⌋ % 7 + 7) % 7

/-- Monday to Friday. -/
def workingDays : List ℤ := [0, 1, 2, 3, 4]

/-- `SchedulingAgent._generate_day_slots` for the day starting at midnight
`dayStart`. -/
def generateDaySlots (dayStart : ℚ) (existing : List BookedInterval)
    (center : ServiceCenter) (estimatedDuration : ℚ) : List Slot :=
  businessHoursList.filterMap fun (h : ℕ) =>
    let slotStart := dayStart + (h : ℚ)
    let slotEnd := slotStart + estimatedDuration
    if hasConflict slotStart slotEnd existing center.capacity then none
    else
      some { start_time := slotStart
             end_time := slotEnd
             duration_hours := estimatedDuration
             service_center_id := center.service_center_id
             service_center_name := center.name
             available_capacity :=
               (center.capacity : ℤ) - countOverlappingAppointments slotStart slotEnd existing }

/-- The `while current_date <= end_date and len(slots) < max_slots` loop of
`_generate_available_slots`.  `fuel` bounds the number of iterations; the
caller supplies enough fuel to cover every midnight `≤ end_date` (the day
advances by 24 hours each iteration in every branch). -/
def generateSlotsLoop (fuel : ℕ) (currentDate endDate : ℚ) (priority : String)
    (existing : List BookedInterval) (center : ServiceCenter)
    (estimatedDuration : ℚ) (maxSlots : ℕ) (slots : List Slot) : List Slot :=
  match fuel with
  | 0 => slots
  | fuel + 1 =>
    if currentDate ≤ endDate ∧ slots.length < maxSlots then
      -- skip weekends unless the window priority is critical
      if weekdayOf currentDate ∉ workingDays ∧ priority ≠ "critical" then
        generateSlotsLoop fuel (currentDate + 24) endDate priority existing center
          estimatedDuration maxSlots slots
      else
        let daySlots := generateDaySlots currentDate existing center estimatedDuration
        let slots' := slots ++ daySlots
        if maxSlots ≤ slots'.length then slots'.take maxSlots
        else
          generateSlotsLoop fuel (currentDate + 24) endDate priority existing center
            estimatedDuration maxSlots slots'
    else slots

/-- `SchedulingAgent._generate_available_slots` combined with the window
computation in `find_available_slots`: the search starts at the midnight of
the day containing `now` and the DB reads (service center, existing
bookings) are the `center`/`existing` parameters. -/
def findAvailableSlots (now : ℚ) (center : ServiceCenter)
    (existing : List BookedInterval) (diag : DiagnosticReport) (maxSlots : ℕ) :
    List Slot :=
  let w := getSearchWindow diag.urgency now
  let estimatedDuration := diag.total_estimated_downtime_hours
  let startMidnight : ℚ := 24 * (⌊now / 24⌋ : ℤ)
  let fuel := (⌈(w.endTime - startMidnight) / 24⌉ + 1).toNat
  generateSlotsLoop fuel startMidnight w.endTime w.priority existing center
    estimatedDuration maxSlots []

/-- `SchedulingAgent.create_appointment`: the appointment row inserted, given
the id the database will assign. -/
def createAppointment (nowUtc : ℚ) (appointmentId : ℕ) (customerId vehicleId : ℕ)
    (slot : Slot) (diag : DiagnosticReport) (notes : Option String) : Appointment :=
  { appointment_id := appointmentId
    customer_id := customerId
    vehicle_id := vehicleId
    service_center_id := slot.service_center_id
    appointment_time := slot.start_time
    status := "scheduled"
    service_type := "predictive_maintenance"
    estimated_duration_hours := slot.duration_hours
    estimated_cost := diag.total_estimated_cost
    notes := notes.getD ("Predicted issue: " ++ diag.issue_category)
    created_at := nowUtc }

/-! ### Master agent (`backend/agents/master_agent.py`)

The orchestrator owns the workflow registry; DB reads and the sub-agent
calls of `_execute_workflow` are supplied through `MasterEnv`, with
`Except.error` standing for an exception raised inside the call. -/

/-- `WorkflowState`. -/
inductive WorkflowState where
  | initiated
  | diagnosed
  | contacting_customer
  | scheduling
  | scheduled
  | customer_declined
  | awaiting_service
  | service_completed
  | feedback_collected
  | escalated
  | failed
deriving DecidableEq, Repr

/-- Result of `FeedbackAgent.collect_feedback`, opaque to the orchestrator. -/
abbrev FeedbackResult := String

/-- `WorkflowContext`. -/
structure WorkflowContext where
  workflow_id : String
  alert : Alert
  state : WorkflowState
  created_at : ℚ
  updated_at : ℚ
  customer_info : Option CustomerInfo
  vehicle_info : Option VehicleInfo
  diagnosis : Option DiagnosticReport
  conversation_id : Option String
  proposed_slots : List Slot
  appointment_id : Option ℕ
  feedback : Option FeedbackResult
  sla_deadline : Option ℚ
  sla_met : Option Bool
  errors : List String
  retry_count : ℕ
deriving DecidableEq, Repr

/-- An `AgentAuditLog` row as written by `MasterAgent._log_audit` (the
free-form `event_data` payload is not modelled). -/
structure AuditEntry where
  agent_name : String
  action : String
  vehicle_id : Option ℕ
  customer_id : Option ℕ
  workflow_id : String
  state : WorkflowState
  timestamp : ℚ
deriving DecidableEq, Repr

/-- The feedback payload of `handle_feedback_submission` (dictionary keys
read with `.get` and their defaults). -/
structure FeedbackSubmission where
  survey_responses : List (String × ℚ)
  service_outcome : Option String
  actual_repairs : List String
  actual_cost : ℚ
  actual_duration_hours : ℚ
deriving DecidableEq, Repr

/-- The members of the `ServiceOutcome` enum. -/
def serviceOutcomeValues : List String :=
  ["completed_as_predicted", "completed_different_issue", "no_issue_found",
   "partially_completed", "cancelled"]

/-- `ServiceOutcome(value)`: raises `ValueError` on a non-member string. -/
def parseServiceOutcome (s : String) : Except String String :=
  if s ∈ serviceOutcomeValues then .ok s
  else .error ("ValueError: " ++ s ++ " is not a valid ServiceOutcome")

/-- The whole mutable state the agents keep between calls: the two
registries, the appointments table, the audit table and the id the next
inserted appointment row will receive. -/
structure SystemState where
  active_workflows : List (String × WorkflowContext)
  active_conversations : List (String × ConversationContext)
  appointments : List Appointment
  audit_log : List AuditEntry
  next_appointment_id : ℕ
deriving DecidableEq, Repr

/-- Collaborators of the orchestrator.  `lookupInfo` is
`_get_customer_vehicle_info` (which swallows its own DB errors and returns
`None`); the `...Step` fields are the sub-agent calls of
`_execute_workflow`/`handle_customer_response`, an `Except.error` standing
for an exception the call raises. -/
structure MasterEnv where
  lookupInfo : ℕ → Option (CustomerInfo × VehicleInfo)
  diagnoseStep : Alert → Except String DiagnosticReport
  findSlotsStep : ℚ → CustomerInfo → VehicleInfo → DiagnosticReport →
    List Appointment → Except String (List Slot)
  contactStep : ℚ → CustomerInfo → VehicleInfo → DiagnosticReport → List Slot →
    List (String × ConversationContext) →
    Except String (String × List (String × ConversationContext))
  scheduleFollowUp : Option ℕ → String
  collectFeedback : Option ℕ → FeedbackSubmission → FeedbackResult

/-- `self.sla_constraints` (hours per urgency tier). -/
def slaConstraints : List (String × ℕ) :=
  [("immediate", 2), ("urgent", 24), ("soon", 72), ("routine", 168)]

/-- `self.sla_constraints.get(urgency, 168)`. -/
def slaHours (urgency : String) : ℕ :=
  (alistGet urgency slaConstraints).getD 168

/-- `f"wf_\x7balert['vehicle_id']\x7d_\x7btimestamp\x7d"`. -/
def mkWorkflowId (vehicleId : ℕ) (now : ℚ) : String :=
  "wf_" ++ toString vehicleId ++ "_" ++ ratStr now

/-- `WorkflowContext.__init__`. -/
def initialContext (alert : Alert) (now : ℚ) : WorkflowContext :=
  { workflow_id := mkWorkflowId alert.vehicle_id now
    alert := alert
    state := .initiated
    created_at := now
    updated_at := now
    customer_info := none
    vehicle_info := none
    diagnosis := none
    conversation_id := none
    proposed_slots := []
    appointment_id := none
    feedback := none
    sla_deadline := none
    sla_met := none
    errors := []
    retry_count := 0 }

/-- The context right after `process_alert` computes the SLA deadline:
`datetime.utcnow() + timedelta(hours=self.sla_constraints.get(alert.get('urgency', 'routine'), 168))`. -/
def slaContext (alert : Alert) (now : ℚ) : WorkflowContext :=
  {initialContext alert now with
    sla_deadline := some (now + (slaHours (alert.urgency.getD "routine") : ℚ))}

/-- `MasterAgent._log_audit` row for the given context. -/
def mkAudit (ctx : WorkflowContext) (action : String) (now : ℚ) : AuditEntry :=
  { agent_name := "master_agent"
    action := action
    vehicle_id := ctx.vehicle_info.map (·.vehicle_id)
    customer_id := ctx.customer_info.map (·.customer_id)
    workflow_id := ctx.workflow_id
    state := ctx.state
    timestamp := now }

/-- What `_execute_workflow` produces when it runs to completion: the
updated workflow context, the conversation registry after
`initiate_contact`, and the audit rows written along the way. -/
structure ExecOutcome where
  ctx : WorkflowContext
  conversations : List (String × ConversationContext)
  audit : List AuditEntry
deriving DecidableEq, Repr

/-- `MasterAgent._execute_workflow`: info lookup (raising when it returns
nothing), diagnosis, slot search, customer contact, with the state
transitions and audit rows of the source. -/
def executeWorkflow (env : MasterEnv) (now : ℚ) (ctx : WorkflowContext)
    (st : SystemState) : Except String ExecOutcome := do
  match env.lookupInfo ctx.alert.vehicle_id with
  | none => .error "Failed to retrieve customer/vehicle information"
  | some (customerInfo, vehicleInfo) =>
    let ctx := {ctx with customer_info := some customerInfo,
                         vehicle_info := some vehicleInfo}
    let diag ← env.diagnoseStep ctx.alert
    let ctx := {ctx with diagnosis := some diag, state := .diagnosed}
    let audit1 := mkAudit ctx "diagnosis_completed" now
    let slots ← env.findSlotsStep now customerInfo vehicleInfo diag st.appointments
    let ctx := {ctx with proposed_slots := slots}
    let (conversationId, convs) ←
      env.contactStep now customerInfo vehicleInfo diag slots st.active_conversations
    let ctx := {ctx with conversation_id := some conversationId,
                         state := .contacting_customer}
    .ok { ctx := ctx, conversations := convs,
          audit := [audit1, mkAudit ctx "customer_contacted" now] }

/-- The context stored when the `except` branch of `process_alert` fires
with message `e`. -/
def failedContext (alert : Alert) (now : ℚ) (e : String) : WorkflowContext :=
  { slaContext alert now with
    state := .failed
    errors := (slaContext alert now).errors ++ [e] }

/-- `self.active_workflows[context.workflow_id] = context`, performed before
the `try` block. -/
def registerStep (alert : Alert) (now : ℚ) (st : SystemState) : SystemState :=
  { st with
    active_workflows :=
      alistInsert (mkWorkflowId alert.vehicle_id now) (initialContext alert now)
        st.active_workflows }

/-- `MasterAgent.process_alert`: create and register the context, set the
SLA deadline from the alert's own `urgency` field (default `routine`), run
the workflow, and catch any exception by marking the workflow `FAILED`,
recording the error and writing a `workflow_failed` audit row.  The
function always returns a state: nothing propagates. -/
def processAlert (env : MasterEnv) (now : ℚ) (alert : Alert) (st : SystemState) :
    SystemState :=
  let workflowId := mkWorkflowId alert.vehicle_id now
  let st1 := registerStep alert now st
  let ctx1 := slaContext alert now
  match executeWorkflow env now ctx1 st1 with
  | .ok out =>
    {st1 with active_workflows := alistInsert workflowId out.ctx st1.active_workflows,
              active_conversations := out.conversations,
              audit_log := st1.audit_log ++ out.audit}
  | .error e =>
    let ctxF := failedContext alert now e
    {st1 with active_workflows := alistInsert workflowId ctxF st1.active_workflows,
              audit_log := st1.audit_log ++ [mkAudit ctxF "workflow_failed" now]}

/-- Results returned by the orchestrator's handler methods. -/
inductive HRes where
  | err (msg : String)
  | scheduledOk (appt : Appointment) (slaMet : Bool)
  | declinedOk
  | escalatedOk
  | passthrough (r : CEResult)
  | completedOk (followUp : String)
  | feedbackOk (fr : FeedbackResult)
deriving DecidableEq, Repr

/-- The `action` key of a customer-agent result dictionary. -/
def actionOf : CEResult → Option String
  | .fail _ => none
  | .act a _ => some a

/-- The `selected_slot` key of a customer-agent result dictionary. -/
def selectedOf : CEResult → Option Slot
  | .fail _ => none
  | .act _ s => s

/-- `MasterAgent.handle_customer_response`.  Exceptions escaping the
customer agent, and the attribute/key errors the confirm path would raise
when the workflow never completed its happy path, are `Except.error`. -/
def handleCustomerResponse (_env : MasterEnv) (now : ℚ) (workflowId : String)
    (userInput : String) (st : SystemState) : Except String (SystemState × HRes) :=
  match alistGet workflowId st.active_workflows with
  | none => .ok (st, .err "Workflow not found")
  | some ctx => do
    let (convs', r) ← processResponseReg st.active_conversations ctx.conversation_id userInput
    let st := {st with active_conversations := convs'}
    if actionOf r = some "confirm_appointment" then
      match selectedOf r, ctx.customer_info, ctx.vehicle_info, ctx.diagnosis,
            ctx.sla_deadline with
      | some slot, some customerInfo, some vehicleInfo, some diag, some deadline =>
        let appt := createAppointment now st.next_appointment_id
          customerInfo.customer_id vehicleInfo.vehicle_id slot diag none
        let slaMet := decide (now ≤ deadline)
        let ctx' := {ctx with appointment_id := some appt.appointment_id,
                              state := .scheduled, sla_met := some slaMet}
        .ok ({st with
                active_workflows := alistInsert workflowId ctx' st.active_workflows,
                appointments := st.appointments ++ [appt],
                next_appointment_id := st.next_appointment_id + 1,
                audit_log := st.audit_log ++ [mkAudit ctx' "appointment_scheduled" now]},
             .scheduledOk appt slaMet)
      | _, _, _, _, _ => .error "TypeError: workflow data missing on confirm path"
    else if actionOf r = some "acknowledge_decline" then
      let ctx' := {ctx with state := .customer_declined}
      .ok ({st with
              active_workflows := alistInsert workflowId ctx' st.active_workflows,
              audit_log := st.audit_log ++ [mkAudit ctx' "customer_declined" now]},
           .declinedOk)
    else if actionOf r = some "escalate_to_human" then
      let ctx' := {ctx with state := .escalated}
      .ok ({st with
              active_workflows := alistInsert workflowId ctx' st.active_workflows,
              audit_log := st.audit_log ++ [mkAudit ctx' "escalated_to_human" now]},
           .escalatedOk)
    else
      .ok (st, .passthrough r)

/-- `MasterAgent.handle_service_completion`: no guard on the current state;
any registered workflow is moved to `SERVICE_COMPLETED`. -/
def handleServiceCompletion (env : MasterEnv) (now : ℚ) (workflowId : String)
    (_completionData : String) (st : SystemState) :
    Except String (SystemState × HRes) :=
  match alistGet workflowId st.active_workflows with
  | none => .ok (st, .err "Workflow not found")
  | some ctx =>
    let ctx' := {ctx with state := .service_completed}
    let followUp := env.scheduleFollowUp ctx'.appointment_id
    .ok ({st with
            active_workflows := alistInsert workflowId ctx' st.active_workflows,
            audit_log := st.audit_log ++ [mkAudit ctx' "service_completed" now]},
         .completedOk followUp)

/-- `MasterAgent.handle_feedback_submission`: collect feedback, mark the
workflow `FEEDBACK_COLLECTED` and archive (delete) it. -/
def handleFeedbackSubmission (env : MasterEnv) (now : ℚ) (workflowId : String)
    (fd : FeedbackSubmission) (st : SystemState) :
    Except String (SystemState × HRes) :=
  match alistGet workflowId st.active_workflows with
  | none => .ok (st, .err "Workflow not found")
  | some ctx => do
    let _ ← parseServiceOutcome (fd.service_outcome.getD "completed_as_predicted")
    let fr := env.collectFeedback ctx.appointment_id fd
    let ctx' := {ctx with feedback := some fr, state := .feedback_collected}
    .ok ({st with
            active_workflows := alistErase workflowId st.active_workflows,
            audit_log := st.audit_log ++ [mkAudit ctx' "feedback_collected" now]},
         .feedbackOk fr)

/-- `MasterAgent.get_workflow_status` (the `to_dict` projection is the
context itself here). -/
def getWorkflowStatus (workflowId : String) (st : SystemState) :
    Option WorkflowContext :=
  alistGet workflowId st.active_workflows

/-- The concrete collaborator instantiation: the embedded diagnosis,
scheduling and customer-engagement agents, over a given customer/vehicle
table, service center and random draws. -/
def realEnv (db : ℕ → Option (CustomerInfo × VehicleInfo)) (center : ServiceCenter)
    (rand : ℕ → ℚ × ℚ) : MasterEnv :=
  { lookupInfo := db
    diagnoseStep := fun a => .ok (diagnose rand a)
    findSlotsStep := fun now _ _ diag appts =>
      .ok (findAvailableSlots now center
        (getExistingBookings now center.service_center_id appts) diag 5)
    contactStep := fun now customerInfo vehicleInfo diag slots convs =>
      .ok (initiateContact now customerInfo vehicleInfo diag slots convs)
    scheduleFollowUp := fun _ => "follow_up_scheduled"
    collectFeedback := fun _ _ => "feedback_recorded" }

/-- The empty system state. -/
def emptySystem : SystemState :=
  { active_workflows := []
    active_conversations := []
    appointments := []
    audit_log := []
    next_appointment_id := 0 }

/-! ### Concrete data used to evaluate the model

A critical-severity alert exactly as `DataAnalysisAgent.publish_alert`
emits it (in particular, with no `urgency` field), plus a customer/vehicle
table, a service center and fixed random draws. -/

/-- A critical alert for vehicle 7 as published to `alerts:predicted`. -/
def sampleAlert : Alert :=
  { vehicle_id := 7
    vin := "VIN7"
    timestamp := 0
    severity := "critical"
    urgency := none
    failure_probability := 9/10
    explanation := ""
    feature_importance := "" }

/-- Fixed stand-in for the `random.uniform` draws. -/
def sampleRand : ℕ → ℚ × ℚ := fun _ => (2, 300)

/-- The mock service center of `_get_nearest_service_center`. -/
def sampleCenter : ServiceCenter :=
  { service_center_id := 1
    name := "Main Service Center"
    location := "Downtown"
    phone := "+1-555-0100"
    capacity := 10 }

def sampleCustomer : CustomerInfo :=
  { customer_id := 1, name := "John Doe", email := "john@example.com",
    phone := "+1-555-0123" }

def sampleVehicle : VehicleInfo :=
  { vehicle_id := 7, vin := "VIN7", make := "Toyota", model := "Camry", year := 2020 }

/-- Customer/vehicle table holding only vehicle 7. -/
def sampleDb : ℕ → Option (CustomerInfo × VehicleInfo) :=
  fun v => if v = 7 then some (sampleCustomer, sampleVehicle) else none

/-- Collaborators with the vehicle present. -/
def sampleEnv : MasterEnv := realEnv sampleDb sampleCenter sampleRand

/-- Collaborators whose customer/vehicle lookup finds nothing, so
`_execute_workflow` raises. -/
def failEnv : MasterEnv := realEnv (fun _ => none) sampleCenter sampleRand

/-- Processing `sampleAlert` against the empty lookup table: the workflow
ends `FAILED`. -/
def failedRun : SystemState := processAlert failEnv 0 sampleAlert emptySystem

/-- Redelivery scenario: the same alert processed twice (at delivery times
0 and 1), then the same two-turn customer acceptance played against each of
the two resulting conversations. -/
def redeliveryRun : Option SystemState := do
  let st2 := processAlert sampleEnv 1 sampleAlert (processAlert sampleEnv 0 sampleAlert emptySystem)
  let (st3, _) ← (handleCustomerResponse sampleEnv 2 (mkWorkflowId 7 0) "yes" st2).toOption
  let (st4, _) ← (handleCustomerResponse sampleEnv 3 (mkWorkflowId 7 0) "yes option 1" st3).toOption
  let (st5, _) ← (handleCustomerResponse sampleEnv 4 (mkWorkflowId 7 1) "yes" st4).toOption
  let (st6, _) ← (handleCustomerResponse sampleEnv 5 (mkWorkflowId 7 1) "yes option 1" st5).toOption
  pure st6

/-- A concrete diagnostic report used to drive the conversation and
scheduling agents directly. -/
def sampleDiag : DiagnosticReport := diagnose sampleRand sampleAlert

/-- A proposed slot list of length `n` (start times 8, 9, ...). -/
def sampleSlots (n : ℕ) : List Slot :=
  (List.range n).map fun k =>
    { start_time := 8 + (k : ℚ)
      end_time := 10 + (k : ℚ)
      duration_hours := 2
      service_center_id := 1
      service_center_name := "Main Service Center"
      available_capacity := 10 }

/-- The message `_execute_workflow` raises when the customer/vehicle lookup
comes back empty. -/
def failMsg : String := "Failed to retrieve customer/vehicle information"

/-- The failed workflow context produced by `failedRun`. -/
def failedCtxSample : WorkflowContext := failedContext sampleAlert 0 failMsg

/-- A workflow context sitting in state `DIAGNOSED`. -/
def diagnosedWorkflow : WorkflowContext :=
  {initialContext sampleAlert 0 with state := .diagnosed}

/-- A registry holding one `DIAGNOSED` workflow. -/
def diagnosedSystem : SystemState :=
  {emptySystem with active_workflows := [("w_diag", diagnosedWorkflow)]}

/-- An empty feedback payload. -/
def sampleFeedback : FeedbackSubmission :=
  { survey_responses := []
    service_outcome := none
    actual_repairs := []
    actual_cost := 0
    actual_duration_hours := 0 }

/-- The state after delivering `sampleAlert` twice (times 0 and 1) and
answering the first workflow's greeting with an acceptance, which moves its
conversation to `PROPOSING_APPOINTMENT`. -/
def c3midState : SystemState :=
  ((handleCustomerResponse sampleEnv 2 (mkWorkflowId 7 0) "yes"
      (processAlert sampleEnv 1 sampleAlert
        (processAlert sampleEnv 0 sampleAlert emptySystem))).toOption.map Prod.fst).getD
    emptySystem

/-- The confirmation turn of the first workflow's conversation. -/
def c3ConfirmCall : Except String (SystemState × HRes) :=
  handleCustomerResponse sampleEnv 3 (mkWorkflowId 7 0) "yes option 1" c3midState

def c3PostState : SystemState :=
  ((c3ConfirmCall.toOption.map Prod.fst).getD emptySystem)

def dummySlot : Slot :=
  { start_time := 0, end_time := 0, duration_hours := 0, service_center_id := 0,
    service_center_name := "", available_capacity := 0 }

/-- The appointment booked by the confirmation turn. -/
def c3Appt : Appointment :=
  match (c3ConfirmCall.toOption.map Prod.snd).getD (.err "") with
  | .scheduledOk a _ => a
  | _ => createAppointment 0 0 0 0 dummySlot sampleDiag none

/-- The SLA flag reported by the confirmation turn. -/
def c3SlaMet : Bool :=
  match (c3ConfirmCall.toOption.map Prod.snd).getD (.err "") with
  | .scheduledOk _ m => m
  | _ => false

/-- A conversation waiting on an appointment proposal with `n` proposed
slots. -/
def proposingCtx (n : ℕ) : ConversationContext :=
  { customer_id := 1
    vehicle_id := 7
    diagnosis := sampleDiag
    state := .proposing_appointment
    timestamp := 0
    proposed_slots := sampleSlots n
    selected_slot := none
    consent_recorded := false
    turn_count := 0
    responses := [] }

/-! ### Registry lemmas

Batteries marks the rational arithmetic operations `@[irreducible]`, which
blocks definitional evaluation of the model on concrete inputs; restore
default reducibility so `decide`/`rfl` can run the embedded code. -/

set_option allowUnsafeReducibility true in
attribute [semireducible] Rat.add Rat.sub Rat.mul Rat.inv Rat.ofScientific

theorem alistGet_insert_self {α : Type} (k : String) (v : α) (l : List (String × α)) :
    alistGet k (alistInsert k v l) = some v := by
  induction l with
  | nil => simp [alistGet, alistInsert]
  | cons hd t ih =>
    obtain ⟨k', v'⟩ := hd
    by_cases h : k = k' <;> simp [alistGet, alistInsert, h, ih]

theorem alistGet_insert_ne {α : Type} {k k' : String} (h : k ≠ k') (v : α)
    (l : List (String × α)) : alistGet k (alistInsert k' v l) = alistGet k l := by
  induction l with
  | nil => simp [alistGet, alistInsert, h]
  | cons hd t ih =>
    obtain ⟨k'', v''⟩ := hd
    by_cases h2 : k' = k'' <;> by_cases h3 : k = k'' <;>
      simp_all [alistGet, alistInsert]

theorem alistGet_erase_ne {α : Type} {k k' : String} (h : k ≠ k')
    (l : List (String × α)) : alistGet k (alistErase k' l) = alistGet k l := by
  induction l with
  | nil => simp [alistErase]
  | cons hd t ih =>
    obtain ⟨k'', v''⟩ := hd
    by_cases h2 : k' = k'' <;> by_cases h3 : k = k'' <;>
      simp_all [alistGet, alistErase]

theorem alistGet_eq_none_of_not_mem {α : Type} {k : String} {l : List (String × α)}
    (h : k ∉ l.map Prod.fst) : alistGet k l = none := by
  induction l with
  | nil => rfl
  | cons hd t ih =>
    obtain ⟨k', v'⟩ := hd
    simp only [List.map_cons, List.mem_cons, not_or] at h
    simp [alistGet, h.1, ih h.2]

theorem alistGet_erase_self {α : Type} (k : String) (l : List (String × α))
    (hnd : (l.map Prod.fst).Nodup) : alistGet k (alistErase k l) = none := by
  induction l with
  | nil => rfl
  | cons hd t ih =>
    obtain ⟨k', v'⟩ := hd
    simp only [List.map_cons, List.nodup_cons] at hnd
    by_cases h : k = k'
    · subst h
      simp only [alistErase, if_pos rfl]
      exact alistGet_eq_none_of_not_mem hnd.1
    · simp only [alistErase, if_neg h, alistGet, if_neg h]
      exact ih hnd.2

/-! ### Workflow-execution lemmas -/

theorem executeWorkflow_sla_deadline {env : MasterEnv} {now : ℚ}
    {ctx : WorkflowContext} {st : SystemState} {out : ExecOutcome}
    (h : executeWorkflow env now ctx st = .ok out) :
    out.ctx.sla_deadline = ctx.sla_deadline := by
  unfold executeWorkflow at h
  cases hl : env.lookupInfo ctx.alert.vehicle_id with
  | none => rw [hl] at h; cases h
  | some pr =>
    obtain ⟨ci, vi⟩ := pr
    rw [hl] at h
    cases hd : env.diagnoseStep ctx.alert with
    | error e => simp [hd, bind, Except.bind] at h
    | ok diag =>
      simp only [hd, bind, Except.bind] at h
      cases hs : env.findSlotsStep now ci vi diag st.appointments with
      | error e => simp [hs] at h
      | ok slots =>
        simp only [hs] at h
        cases hc : env.contactStep now ci vi diag slots st.active_conversations with
        | error e => simp [hc] at h
        | ok pr2 =>
          obtain ⟨cid, convs⟩ := pr2
          simp only [hc, pure, Except.pure] at h
          cases h
          rfl

/-! ### C1: the SLA deadline -/

/-- C1 counterexample: a severity-`critical` alert as actually published
(no `urgency` field) gets `sla_deadline = now + 168` hours from
`process_alert`, not `now + 2` hours as the claim requires for the urgency
tier `immediate` derived from `critical` severity. -/
theorem c1_counterexample :
    (getWorkflowStatus (mkWorkflowId 7 0) failedRun).map (·.sla_deadline)
        = some (some 168) ∧
    sampleAlert.severity = "critical" ∧
    determineUrgency sampleAlert.severity [] = "immediate" ∧
    slaHours "immediate" = 2 ∧
    (168 : ℚ) ≠ 0 + 2 := by
  refine ⟨by decide, rfl, by decide, by decide, by norm_num⟩

/-- C1 (amended): for every alert handled by `process_alert`, the SLA
deadline stored in the workflow context equals the time of receipt plus the
SLA window for the alert's own `urgency` field, defaulting to `routine`
when the field is absent (table immediate=2h, urgent=24h, soon=72h,
routine=168h); the urgency is not derived from the alert's severity. -/
theorem c1_sla_deadline_from_alert_urgency (env : MasterEnv) (now : ℚ)
    (alert : Alert) (st : SystemState) :
    (getWorkflowStatus (mkWorkflowId alert.vehicle_id now)
        (processAlert env now alert st)).map (·.sla_deadline)
      = some (some (now + (slaHours (alert.urgency.getD "routine") : ℚ))) := by
  unfold getWorkflowStatus processAlert
  cases h : executeWorkflow env now (slaContext alert now) (registerStep alert now st) with
  | ok out =>
    simp only [h, alistGet_insert_self, Option.map_some']
    rw [executeWorkflow_sla_deadline h]
    simp [slaContext]
  | error e =>
    simp only [h, alistGet_insert_self, Option.map_some']
    simp [failedContext, slaContext]

/-! ### C2: the workflow state machine -/

/-- `handle_service_completion` does not look at the current state: any
registered workflow is moved to `SERVICE_COMPLETED`. -/
theorem handleServiceCompletion_of_mem (env : MasterEnv) (now : ℚ)
    (wfId data : String) (st : SystemState) (ctx : WorkflowContext)
    (h : alistGet wfId st.active_workflows = some ctx) :
    handleServiceCompletion env now wfId data st =
      .ok ({st with
              active_workflows :=
                alistInsert wfId {ctx with state := .service_completed} st.active_workflows,
              audit_log := st.audit_log ++
                [mkAudit {ctx with state := .service_completed} "service_completed" now]},
           .completedOk (env.scheduleFollowUp ctx.appointment_id)) := by
  unfold handleServiceCompletion
  rw [h]

/-- No handler ever sets a workflow's state to `DIAGNOSED`: a workflow that
is `DIAGNOSED` after `handle_service_completion` was already stored
unchanged before the call. -/
theorem handleServiceCompletion_no_diagnosed (env : MasterEnv) (now : ℚ)
    (wfId data : String) (st st' : SystemState) (r : HRes) (id : String)
    (c' : WorkflowContext)
    (hok : handleServiceCompletion env now wfId data st = .ok (st', r))
    (hget : alistGet id st'.active_workflows = some c')
    (hdiag : c'.state = .diagnosed) :
    alistGet id st.active_workflows = some c' := by
  unfold handleServiceCompletion at hok
  cases hw : alistGet wfId st.active_workflows with
  | none =>
    rw [hw] at hok
    simp only [Except.ok.injEq, Prod.mk.injEq] at hok
    rw [← hok.1] at hget
    exact hget
  | some ctx =>
    rw [hw] at hok
    simp only [Except.ok.injEq, Prod.mk.injEq] at hok
    rw [← hok.1] at hget
    by_cases hid : id = wfId
    · subst hid
      rw [alistGet_insert_self] at hget
      cases hget
      cases hdiag
    · rw [alistGet_insert_ne hid] at hget
      exact hget

/-- Same statement for `handle_customer_response`: the only states it ever
writes are `SCHEDULED`, `CUSTOMER_DECLINED` and `ESCALATED`. -/
theorem handleCustomerResponse_no_diagnosed (env : MasterEnv) (now : ℚ)
    (wfId inp : String) (st st' : SystemState) (r : HRes) (id : String)
    (c' : WorkflowContext)
    (hok : handleCustomerResponse env now wfId inp st = .ok (st', r))
    (hget : alistGet id st'.active_workflows = some c')
    (hdiag : c'.state = .diagnosed) :
    alistGet id st.active_workflows = some c' := by
  unfold handleCustomerResponse at hok
  cases hw : alistGet wfId st.active_workflows with
  | none =>
    rw [hw] at hok
    simp only [Except.ok.injEq, Prod.mk.injEq] at hok
    rw [← hok.1] at hget
    exact hget
  | some ctx =>
    rw [hw] at hok
    simp only [bind, Except.bind] at hok
    cases hpr : processResponseReg st.active_conversations ctx.conversation_id inp with
    | error e => rw [hpr] at hok; simp at hok
    | ok pr =>
      obtain ⟨convs', r0⟩ := pr
      rw [hpr] at hok
      dsimp only [] at hok
      by_cases hc1 : actionOf r0 = some "confirm_appointment"
      · rw [if_pos hc1] at hok
        cases hsel : selectedOf r0 with
        | none => rw [hsel] at hok; simp at hok
        | some slot =>
          rw [hsel] at hok
          cases hci : ctx.customer_info with
          | none => rw [hci] at hok; simp at hok
          | some customerInfo =>
            rw [hci] at hok
            cases hvi : ctx.vehicle_info with
            | none => rw [hvi] at hok; simp at hok
            | some vehicleInfo =>
              rw [hvi] at hok
              cases hdg : ctx.diagnosis with
              | none => rw [hdg] at hok; simp at hok
              | some diag =>
                rw [hdg] at hok
                cases hsd : ctx.sla_deadline with
                | none => rw [hsd] at hok; simp at hok
                | some deadline =>
                  rw [hsd] at hok
                  simp only [Except.ok.injEq, Prod.mk.injEq] at hok
                  rw [← hok.1] at hget
                  by_cases hid : id = wfId
                  · subst hid
                    rw [alistGet_insert_self] at hget
                    cases hget
                    cases hdiag
                  · rw [alistGet_insert_ne hid] at hget
                    exact hget
      · rw [if_neg hc1] at hok
        by_cases hc2 : actionOf r0 = some "acknowledge_decline"
        · rw [if_pos hc2] at hok
          simp only [Except.ok.injEq, Prod.mk.injEq] at hok
          rw [← hok.1] at hget
          by_cases hid : id = wfId
          · subst hid
            rw [alistGet_insert_self] at hget
            cases hget
            cases hdiag
          · rw [alistGet_insert_ne hid] at hget
            exact hget
        · rw [if_neg hc2] at hok
          by_cases hc3 : actionOf r0 = some "escalate_to_human"
          · rw [if_pos hc3] at hok
            simp only [Except.ok.injEq, Prod.mk.injEq] at hok
            rw [← hok.1] at hget
            by_cases hid : id = wfId
            · subst hid
              rw [alistGet_insert_self] at hget
              cases hget
              cases hdiag
            · rw [alistGet_insert_ne hid] at hget
              exact hget
          · rw [if_neg hc3] at hok
            simp only [Except.ok.injEq, Prod.mk.injEq] at hok
            rw [← hok.1] at hget
            exact hget

/-- Same statement for `handle_feedback_submission`, which only ever
removes the workflow (for a registry with distinct keys, as a Python dict
always has). -/
theorem handleFeedbackSubmission_no_diagnosed (env : MasterEnv) (now : ℚ)
    (wfId : String) (fd : FeedbackSubmission) (st st' : SystemState) (r : HRes)
    (id : String) (c' : WorkflowContext)
    (hnd : (st.active_workflows.map Prod.fst).Nodup)
    (hok : handleFeedbackSubmission env now wfId fd st = .ok (st', r))
    (hget : alistGet id st'.active_workflows = some c')
    (_hdiag : c'.state = .diagnosed) :
    alistGet id st.active_workflows = some c' := by
  unfold handleFeedbackSubmission at hok
  cases hw : alistGet wfId st.active_workflows with
  | none =>
    rw [hw] at hok
    simp only [Except.ok.injEq, Prod.mk.injEq] at hok
    rw [← hok.1] at hget
    exact hget
  | some ctx =>
    rw [hw] at hok
    cases hp : parseServiceOutcome (fd.service_outcome.getD "completed_as_predicted") with
    | error e => rw [hp] at hok; simp [bind, Except.bind] at hok
    | ok s =>
      rw [hp] at hok
      simp only [bind, Except.bind, Except.ok.injEq, Prod.mk.injEq] at hok
      rw [← hok.1] at hget
      by_cases hid : id = wfId
      · subst hid
        rw [alistGet_erase_self _ _ hnd] at hget
        cases hget
      · rw [alistGet_erase_ne hid] at hget
        exact hget

/-- C2 counterexample: `FAILED` is not absorbing.  The workflow that failed
in `failedRun` is moved to `SERVICE_COMPLETED` by
`handle_service_completion`. -/
theorem c2_counterexample :
    (getWorkflowStatus (mkWorkflowId 7 0) failedRun).map (·.state) = some .failed ∧
    ((handleServiceCompletion failEnv 1 (mkWorkflowId 7 0) "done" failedRun).toOption.map
        (fun p => (getWorkflowStatus (mkWorkflowId 7 0) p.1).map (·.state)))
      = some (some .service_completed) ∧
    WorkflowState.service_completed ≠ WorkflowState.failed :=
  ⟨by decide, by decide, by decide⟩

/-- C2 (amended): the orchestrator's handlers do not guard on the current
state, so `FAILED` is not absorbing — `handle_service_completion` moves any
registered workflow, including a `FAILED` one, to `SERVICE_COMPLETED`; but
no handler ever sets a state to `DIAGNOSED`, so no workflow re-enters
`DIAGNOSED` after leaving it. -/
theorem c2_failed_not_absorbing_no_diagnosed_reentry :
    (∀ (env : MasterEnv) (now : ℚ) (wfId data : String) (st : SystemState)
        (ctx : WorkflowContext),
        alistGet wfId st.active_workflows = some ctx →
        handleServiceCompletion env now wfId data st =
          .ok ({st with
                  active_workflows :=
                    alistInsert wfId {ctx with state := .service_completed}
                      st.active_workflows,
                  audit_log := st.audit_log ++
                    [mkAudit {ctx with state := .service_completed} "service_completed" now]},
               .completedOk (env.scheduleFollowUp ctx.appointment_id))) ∧
    (∀ (env : MasterEnv) (now : ℚ) (wfId inp : String) (st st' : SystemState)
        (r : HRes) (id : String) (c' : WorkflowContext),
        handleCustomerResponse env now wfId inp st = .ok (st', r) →
        alistGet id st'.active_workflows = some c' → c'.state = .diagnosed →
        alistGet id st.active_workflows = some c') ∧
    (∀ (env : MasterEnv) (now : ℚ) (wfId data : String) (st st' : SystemState)
        (r : HRes) (id : String) (c' : WorkflowContext),
        handleServiceCompletion env now wfId data st = .ok (st', r) →
        alistGet id st'.active_workflows = some c' → c'.state = .diagnosed →
        alistGet id st.active_workflows = some c') ∧
    (∀ (env : MasterEnv) (now : ℚ) (wfId : String) (fd : FeedbackSubmission)
        (st st' : SystemState) (r : HRes) (id : String) (c' : WorkflowContext),
        (st.active_workflows.map Prod.fst).Nodup →
        handleFeedbackSubmission env now wfId fd st = .ok (st', r) →
        alistGet id st'.active_workflows = some c' → c'.state = .diagnosed →
        alistGet id st.active_workflows = some c') :=
  ⟨handleServiceCompletion_of_mem,
   handleCustomerResponse_no_diagnosed,
   handleServiceCompletion_no_diagnosed,
   handleFeedbackSubmission_no_diagnosed⟩

/-- C2 witness: the amended theorem applied at concrete inputs — the failed
workflow of `failedRun` for the unconditional-completion part, and a
registry holding one `DIAGNOSED` workflow for the three
no-re-entry parts. -/
theorem c2_amended_witness :
    (handleServiceCompletion failEnv 1 (mkWorkflowId 7 0) "done" failedRun =
      .ok ({failedRun with
              active_workflows :=
                alistInsert (mkWorkflowId 7 0) {failedCtxSample with state := .service_completed}
                  failedRun.active_workflows,
              audit_log := failedRun.audit_log ++
                [mkAudit {failedCtxSample with state := .service_completed} "service_completed" 1]},
           .completedOk (failEnv.scheduleFollowUp failedCtxSample.appointment_id))) ∧
    alistGet "w_diag" diagnosedSystem.active_workflows = some diagnosedWorkflow ∧
    alistGet "w_diag" diagnosedSystem.active_workflows = some diagnosedWorkflow ∧
    alistGet "w_diag" diagnosedSystem.active_workflows = some diagnosedWorkflow :=
  ⟨c2_failed_not_absorbing_no_diagnosed_reentry.1 failEnv 1 (mkWorkflowId 7 0) "done"
      failedRun failedCtxSample (by decide),
   c2_failed_not_absorbing_no_diagnosed_reentry.2.1 failEnv 0 "missing" "x"
      diagnosedSystem diagnosedSystem (.err "Workflow not found") "w_diag" diagnosedWorkflow
      (by decide) (by decide) (by decide),
   c2_failed_not_absorbing_no_diagnosed_reentry.2.2.1 failEnv 0 "missing" "x"
      diagnosedSystem diagnosedSystem (.err "Workflow not found") "w_diag" diagnosedWorkflow
      (by decide) (by decide) (by decide),
   c2_failed_not_absorbing_no_diagnosed_reentry.2.2.2 failEnv 0 "missing" sampleFeedback
      diagnosedSystem diagnosedSystem (.err "Workflow not found") "w_diag" diagnosedWorkflow
      (by decide) (by decide) (by decide) (by decide)⟩

/-! ### C3: idempotence of alert processing -/

/-- Every call to `process_alert` leaves the workflow keyed by
`(vehicle_id, delivery time)` registered. -/
theorem processAlert_registers (env : MasterEnv) (now : ℚ) (alert : Alert)
    (st : SystemState) :
    (alistGet (mkWorkflowId alert.vehicle_id now)
      (processAlert env now alert st).active_workflows).isSome := by
  unfold processAlert
  cases h : executeWorkflow env now (slaContext alert now) (registerStep alert now st) with
  | ok out => simp [h, alistGet_insert_self]
  | error e => simp [h, alistGet_insert_self]

/-- `process_alert` never removes or rewrites a workflow stored under a
different key: there is no deduplication by `(vehicle_id, alert
timestamp)`. -/
theorem processAlert_preserves_other (env : MasterEnv) (now : ℚ) (alert : Alert)
    (st : SystemState) (id : String) (h : id ≠ mkWorkflowId alert.vehicle_id now) :
    alistGet id (processAlert env now alert st).active_workflows
      = alistGet id st.active_workflows := by
  unfold processAlert
  cases hx : executeWorkflow env now (slaContext alert now) (registerStep alert now st) with
  | ok out =>
    simp only [hx]
    simp [registerStep, alistGet_insert_ne h]
  | error e =>
    simp only [hx]
    simp [registerStep, alistGet_insert_ne h]

/-- The confirm path of `handle_customer_response` appends a fresh
appointment row unconditionally: nothing checks for an existing appointment
of the same workflow, vehicle or alert. -/
theorem confirm_appends_appointment (env : MasterEnv) (now : ℚ)
    (wfId inp : String) (st st' : SystemState) (appt : Appointment) (met : Bool)
    (hok : handleCustomerResponse env now wfId inp st = .ok (st', .scheduledOk appt met)) :
    st'.appointments = st.appointments ++ [appt] := by
  unfold handleCustomerResponse at hok
  cases hw : alistGet wfId st.active_workflows with
  | none => rw [hw] at hok; simp at hok
  | some ctx =>
    rw [hw] at hok
    simp only [bind, Except.bind] at hok
    cases hpr : processResponseReg st.active_conversations ctx.conversation_id inp with
    | error e => rw [hpr] at hok; simp at hok
    | ok pr =>
      obtain ⟨convs', r0⟩ := pr
      rw [hpr] at hok
      dsimp only [] at hok
      by_cases hc1 : actionOf r0 = some "confirm_appointment"
      · rw [if_pos hc1] at hok
        cases hsel : selectedOf r0 with
        | none => rw [hsel] at hok; simp at hok
        | some slot =>
          rw [hsel] at hok
          cases hci : ctx.customer_info with
          | none => rw [hci] at hok; simp at hok
          | some customerInfo =>
            rw [hci] at hok
            cases hvi : ctx.vehicle_info with
            | none => rw [hvi] at hok; simp at hok
            | some vehicleInfo =>
              rw [hvi] at hok
              cases hdg : ctx.diagnosis with
              | none => rw [hdg] at hok; simp at hok
              | some diag =>
                rw [hdg] at hok
                cases hsd : ctx.sla_deadline with
                | none => rw [hsd] at hok; simp at hok
                | some deadline =>
                  rw [hsd] at hok
                  simp only [Except.ok.injEq, Prod.mk.injEq, HRes.scheduledOk.injEq] at hok
                  rw [← hok.1, ← hok.2.1]
      · rw [if_neg hc1] at hok
        by_cases hc2 : actionOf r0 = some "acknowledge_decline"
        · rw [if_pos hc2] at hok; simp at hok
        · rw [if_neg hc2] at hok
          by_cases hc3 : actionOf r0 = some "escalate_to_human"
          · rw [if_pos hc3] at hok; simp at hok
          · rw [if_neg hc3] at hok; simp at hok

/-- C3 counterexample: the redelivery scenario — the very same
`AlertEvent` delivered twice, each delivery's conversation answered with
the same acceptance — books two appointments for vehicle 7, both stemming
from the alert with timestamp 0. -/
theorem c3_counterexample :
    redeliveryRun.map
        (fun s => (s.appointments.filter (fun a => a.vehicle_id = 7)).length)
      = some 2 ∧
    ¬ (2 : ℕ) ≤ 1 := ⟨by decide, by decide⟩

/-- C3 (amended): alert processing is not idempotent per
`(vehicle_id, alert timestamp)`.  Each delivery of the same alert registers
a fresh workflow keyed by delivery time, both stay registered, and every
`confirm_appointment` action appends a new appointment row unconditionally,
so redelivery plus the same acceptance books two appointments. -/
theorem c3_not_idempotent :
    (∀ (env env2 : MasterEnv) (now now2 : ℚ) (alert : Alert) (st : SystemState),
        mkWorkflowId alert.vehicle_id now ≠ mkWorkflowId alert.vehicle_id now2 →
        (alistGet (mkWorkflowId alert.vehicle_id now)
            (processAlert env2 now2 alert (processAlert env now alert st)).active_workflows).isSome ∧
        (alistGet (mkWorkflowId alert.vehicle_id now2)
            (processAlert env2 now2 alert (processAlert env now alert st)).active_workflows).isSome) ∧
    (∀ (env : MasterEnv) (now : ℚ) (wfId inp : String) (st st' : SystemState)
        (appt : Appointment) (met : Bool),
        handleCustomerResponse env now wfId inp st = .ok (st', .scheduledOk appt met) →
        st'.appointments = st.appointments ++ [appt]) := by
  constructor
  · intro env env2 now now2 alert st hne
    constructor
    · rw [processAlert_preserves_other env2 now2 alert _ _ hne]
      exact processAlert_registers env now alert st
    · exact processAlert_registers env2 now2 alert _
  · intro env now wfId inp st st' appt met hok
    exact confirm_appends_appointment env now wfId inp st st' appt met hok

set_option maxRecDepth 4000 in
/-- C3 witness: the amended theorem applied to the concrete redelivery run
(delivery times 0 and 1) and to its concrete confirmation turn. -/
theorem c3_witness :
    ((alistGet (mkWorkflowId 7 0)
        (processAlert sampleEnv 1 sampleAlert
          (processAlert sampleEnv 0 sampleAlert emptySystem)).active_workflows).isSome ∧
     (alistGet (mkWorkflowId 7 1)
        (processAlert sampleEnv 1 sampleAlert
          (processAlert sampleEnv 0 sampleAlert emptySystem)).active_workflows).isSome) ∧
    c3PostState.appointments = c3midState.appointments ++ [c3Appt] :=
  ⟨c3_not_idempotent.1 sampleEnv sampleEnv 0 1 sampleAlert emptySystem (by decide),
   c3_not_idempotent.2 sampleEnv 3 (mkWorkflowId 7 0) "yes option 1" c3midState
     c3PostState c3Appt c3SlaMet (by decide)⟩

/-! ### C4: slot extraction never raises -/

/-- C4: the claim fails on the code and the failure is a slip in the code.
With 4 proposed slots a plain affirmation makes `_extract_slot_selection`
index `['first', 'second', 'third'][3]`, so `process_response` raises
`IndexError` instead of re-prompting; with up to 3 slots the documented
behaviour — default to slot 0 on a plain affirmation, `clarify_slot`
re-prompt when extraction fails — is what the code does. -/
theorem c4_extraction_crash :
    processResponseCtx (proposingCtx 4) "yes"
        = .error "IndexError: list index out of range" ∧
    extractSlotSelection "yes" 4 = .error "IndexError: list index out of range" ∧
    ((processResponseCtx (proposingCtx 3) "yes").toOption.map (fun p => p.2))
        = some (.act "confirm_appointment"
            (some { start_time := 8, end_time := 10, duration_hours := 2,
                    service_center_id := 1,
                    service_center_name := "Main Service Center",
                    available_capacity := 10 })) ∧
    extractSlotSelection "yes" 3 = .ok (some 0) ∧
    ((processResponseCtx (proposingCtx 3) "confirm option").toOption.map (fun p => p.2))
        = some (.act "clarify_slot" none) :=
  ⟨by decide, by decide, by decide, by decide, by decide⟩

/-! ### C5: intent-classification priority -/

/-- C5: `_classify_response` checks the human-escalation keyword list
first, so any input containing a human-escalation keyword classifies as
`REQUEST_HUMAN` no matter which other intent keywords it also contains. -/
theorem c5_human_priority (s : String)
    (h : ∃ p ∈ humanPatterns, strContains (strLower s) p = true) :
    classifyResponse s = .request_human := by
  have hany : humanPatterns.any (fun p => strContains (strLower s) p) = true := by
    rw [List.any_eq_true]
    obtain ⟨p, hp, hc⟩ := h
    exact ⟨p, hp, hc⟩
  simp [classifyResponse, hany]

/-- C5 witness: `"no, transfer me"` contains the decline keyword `no` and
the human keyword `transfer`; it classifies as `REQUEST_HUMAN`. -/
theorem c5_witness :
    declinePatterns.any (fun p => strContains (strLower "no, transfer me") p) = true ∧
    classifyResponse "no, transfer me" = .request_human :=
  ⟨by decide, c5_human_priority "no, transfer me" ⟨"transfer", by decide, by decide⟩⟩

/-! ### C6: repeated UNCLEAR forces escalation -/

/-- C6: starting from any conversation state with `turn_count = 0`, three
consecutive `UNCLEAR` inputs each yield a `clarify` action and leave the
state (in particular, its un-escalated status) unchanged with `turn_count`
reaching 3; the fourth consecutive `UNCLEAR` input (`turn_count = 4 > 3`)
yields `escalate_to_human` and sets the state to `ESCALATED`, regardless of
the state the conversation was in. -/
theorem c6_unclear_escalation (ctx : ConversationContext) (i1 i2 i3 i4 : String)
    (h0 : ctx.turn_count = 0)
    (h1 : classifyResponse i1 = .unclear)
    (h2 : classifyResponse i2 = .unclear)
    (h3 : classifyResponse i3 = .unclear)
    (h4 : classifyResponse i4 = .unclear) :
    processResponseCtx ctx i1 = .ok (bumpTurn ctx i1, .act "clarify" none) ∧
    processResponseCtx (bumpTurn ctx i1) i2 =
      .ok (bumpTurn (bumpTurn ctx i1) i2, .act "clarify" none) ∧
    processResponseCtx (bumpTurn (bumpTurn ctx i1) i2) i3 =
      .ok (bumpTurn (bumpTurn (bumpTurn ctx i1) i2) i3, .act "clarify" none) ∧
    (bumpTurn (bumpTurn (bumpTurn ctx i1) i2) i3).state = ctx.state ∧
    (bumpTurn (bumpTurn (bumpTurn ctx i1) i2) i3).turn_count = 3 ∧
    processResponseCtx (bumpTurn (bumpTurn (bumpTurn ctx i1) i2) i3) i4 =
      .ok ({bumpTurn (bumpTurn (bumpTurn (bumpTurn ctx i1) i2) i3) i4 with state := .escalated},
           .act "escalate_to_human" none) := by
  refine ⟨?_, ?_, ?_, rfl, by simp [bumpTurn, h0], ?_⟩
  · simp [processResponseCtx, bumpTurn, handleResponse, h1, h0]
  · simp [processResponseCtx, bumpTurn, handleResponse, h2, h0]
  · simp [processResponseCtx, bumpTurn, handleResponse, h3, h0]
  · simp [processResponseCtx, bumpTurn, handleResponse, h4, h0]

/-- C6 witness: four times `"asdf"` against a conversation in
`PROPOSING_APPOINTMENT`: three clarifies, then escalation. -/
theorem c6_witness :
    processResponseCtx (proposingCtx 3) "asdf" =
      .ok (bumpTurn (proposingCtx 3) "asdf", .act "clarify" none) ∧
    processResponseCtx (bumpTurn (proposingCtx 3) "asdf") "asdf" =
      .ok (bumpTurn (bumpTurn (proposingCtx 3) "asdf") "asdf", .act "clarify" none) ∧
    processResponseCtx (bumpTurn (bumpTurn (proposingCtx 3) "asdf") "asdf") "asdf" =
      .ok (bumpTurn (bumpTurn (bumpTurn (proposingCtx 3) "asdf") "asdf") "asdf",
           .act "clarify" none) ∧
    (bumpTurn (bumpTurn (bumpTurn (proposingCtx 3) "asdf") "asdf") "asdf").state
      = (proposingCtx 3).state ∧
    (bumpTurn (bumpTurn (bumpTurn (proposingCtx 3) "asdf") "asdf") "asdf").turn_count = 3 ∧
    processResponseCtx (bumpTurn (bumpTurn (bumpTurn (proposingCtx 3) "asdf") "asdf") "asdf")
        "asdf" =
      .ok ({bumpTurn (bumpTurn (bumpTurn (bumpTurn (proposingCtx 3) "asdf") "asdf") "asdf")
              "asdf" with state := .escalated},
           .act "escalate_to_human" none) :=
  c6_unclear_escalation (proposingCtx 3) "asdf" "asdf" "asdf" "asdf"
    (by decide) (by decide) (by decide) (by decide) (by decide)

/-! ### C7: diagnosis component list -/

/-- Whatever the explanation and feature string, `_identify_issue_category`
returns a key of the rule table, and every rule lists 4 components. -/
theorem identify_category_length (e f : String) :
    ((alistGet (identifyIssueCategory e f) componentRules).map (·.components.length))
      = some 4 := by
  simp only [identifyIssueCategory]
  split_ifs <;> decide

theorem exists_four_of_length_eq_four {α : Type} {l : List α} (h : l.length = 4) :
    ∃ a b c d, l = [a, b, c, d] := by
  rcases l with _ | ⟨a, _ | ⟨b, _ | ⟨c, _ | ⟨d, t⟩⟩⟩⟩ <;> simp_all

/-- `l.head?.toList ++ l.tail` puts the primary component back in front of
the related ones. -/
theorem head?_toList_append_tail {α : Type} (l : List α) :
    l.head?.toList ++ l.tail = l := by
  cases l <;> rfl

/-- For severities outside low/medium, `_diagnose_components` over a
4-component rule keeps the three generated components in generation order
(the sort is the identity on an already-descending list when the failure
probability is nonnegative) with probabilities `fp·(1 − 0.2·rank)`. -/
theorem diagnoseFromRule_high (r : CategoryRule) (fp : ℚ) (severity : String)
    (rand : ℕ → ℚ × ℚ) (hlen : r.components.length = 4)
    (hsev : severity = "high" ∨ severity = "critical") (hfp : 0 ≤ fp) :
    (diagnoseFromRule r fp severity rand).map (·.failure_probability)
        = [fp * (1 - 0 * (1/5)), fp * (1 - 1 * (1/5)), fp * (1 - 2 * (1/5))] ∧
    (diagnoseFromRule r fp severity rand).Sorted
      (fun x y => y.failure_probability ≤ x.failure_probability) := by
  obtain ⟨a, b, c, d, hcomps⟩ := exists_four_of_length_eq_four hlen
  have hnum : (if severity = "low" ∨ severity = "medium" then 1
      else min 3 r.components.length) = 3 := by
    rcases hsev with h | h <;> subst h <;> simp [hlen]
  unfold diagnoseFromRule
  rw [hnum, hcomps]
  dsimp only []
  have htake : ([a, b, c, d].take 3) = [a, b, c] := rfl
  rw [htake]
  have hsorted : List.Sorted
      (fun x y => (y : ComponentDiagnostic).failure_probability ≤ x.failure_probability)
      (([a, b, c].enum).map fun p =>
        ({ component_name := p.2
           failure_probability := fp * (1 - (p.1 : ℚ) * (1/5))
           failure_mode := ((r.failure_modes.lookup p.2).getD "")
           symptoms := r.symptoms
           repair_actions := ((r.repair_actions.lookup p.2).getD [])
           estimated_downtime_hours := (rand p.1).1
           estimated_cost := (rand p.1).2
           urgency := severity } : ComponentDiagnostic)) := by
    simp only [List.enum, List.enumFrom, List.map]
    refine List.sorted_cons.mpr ⟨?_, List.sorted_cons.mpr ⟨?_, ?_⟩⟩
    · intro x hx
      simp only [List.mem_cons, List.mem_singleton] at hx
      rcases hx with h | h | h
      all_goals first
        | (subst h; simp only []; push_cast; nlinarith)
        | cases h
    · intro x hx
      simp only [List.mem_singleton] at hx
      subst hx
      simp only []
      push_cast
      nlinarith
    · simp
  rw [List.Sorted.insertionSort_eq hsorted]
  refine ⟨?_, hsorted⟩
  simp [List.enum, List.enumFrom]

/-- C7: for every alert with severity `high` or `critical` (and a
nonnegative failure probability, as probabilities are), `diagnose` returns
between 2 and 3 candidate components — in fact exactly 3 — the component at
rank `i` (primary first, then related) carrying probability
`failure_probability · (1 − 0.2·i)`, and the sequence is non-increasing in
probability. -/
theorem c7_diagnose_high_severity (rand : ℕ → ℚ × ℚ) (p : Alert)
    (hsev : p.severity = "high" ∨ p.severity = "critical")
    (hfp : 0 ≤ p.failure_probability) :
    ((diagnose rand p).primary_component.toList
        ++ (diagnose rand p).related_components).map (·.failure_probability)
      = [p.failure_probability * (1 - 0 * (1/5)),
         p.failure_probability * (1 - 1 * (1/5)),
         p.failure_probability * (1 - 2 * (1/5))] ∧
    2 ≤ ((diagnose rand p).primary_component.toList
        ++ (diagnose rand p).related_components).length ∧
    ((diagnose rand p).primary_component.toList
        ++ (diagnose rand p).related_components).length ≤ 3 ∧
    ((diagnose rand p).primary_component.toList
        ++ (diagnose rand p).related_components).Sorted
      (fun x y => y.failure_probability ≤ x.failure_probability) := by
  have hcat := identify_category_length p.explanation p.feature_importance
  cases halist : alistGet (identifyIssueCategory p.explanation p.feature_importance)
      componentRules with
  | none => rw [halist] at hcat; cases hcat
  | some r =>
    rw [halist] at hcat
    simp only [Option.map_some', Option.some.injEq] at hcat
    have hmain := diagnoseFromRule_high r p.failure_probability p.severity rand hcat hsev hfp
    have hlist : (diagnose rand p).primary_component.toList
        ++ (diagnose rand p).related_components
        = diagnoseFromRule r p.failure_probability p.severity rand := by
      show ((diagnoseComponents _ _ _ rand).head?.toList ++ (diagnoseComponents _ _ _ rand).tail)
          = _
      rw [head?_toList_append_tail]
      unfold diagnoseComponents
      rw [halist]
    rw [hlist]
    refine ⟨hmain.1, ?_, ?_, hmain.2⟩
    · have := congrArg List.length hmain.1
      simp only [List.length_map] at this
      simp [this]
    · have := congrArg List.length hmain.1
      simp only [List.length_map] at this
      simp [this]

/-- C7 witness: a high-severity alert with failure probability 1/2. -/
theorem c7_witness :
    ((diagnose sampleRand
        {sampleAlert with severity := "high", failure_probability := 1/2}).primary_component.toList
      ++ (diagnose sampleRand
        {sampleAlert with severity := "high", failure_probability := 1/2}).related_components).map
        (·.failure_probability)
      = [(1/2 : ℚ) * (1 - 0 * (1/5)), (1/2 : ℚ) * (1 - 1 * (1/5)),
         (1/2 : ℚ) * (1 - 2 * (1/5))] ∧
    2 ≤ ((diagnose sampleRand
        {sampleAlert with severity := "high", failure_probability := 1/2}).primary_component.toList
      ++ (diagnose sampleRand
        {sampleAlert with severity := "high", failure_probability := 1/2}).related_components).length ∧
    ((diagnose sampleRand
        {sampleAlert with severity := "high", failure_probability := 1/2}).primary_component.toList
      ++ (diagnose sampleRand
        {sampleAlert with severity := "high", failure_probability := 1/2}).related_components).length ≤ 3 ∧
    ((diagnose sampleRand
        {sampleAlert with severity := "high", failure_probability := 1/2}).primary_component.toList
      ++ (diagnose sampleRand
        {sampleAlert with severity := "high", failure_probability := 1/2}).related_components).Sorted
      (fun x y => y.failure_probability ≤ x.failure_probability) :=
  c7_diagnose_high_severity sampleRand
    {sampleAlert with severity := "high", failure_probability := 1/2}
    (Or.inl rfl) (by norm_num)

/-! ### C8: slot generation respects capacity -/

/-- Every slot `_generate_day_slots` emits passed the `_has_conflict`
check: strictly fewer overlapping bookings than the center's capacity. -/
theorem generateDaySlots_capacity (dayStart : ℚ) (existing : List BookedInterval)
    (center : ServiceCenter) (dur : ℚ) (s : Slot)
    (hs : s ∈ generateDaySlots dayStart existing center dur) :
    countOverlappingAppointments s.start_time s.end_time existing < center.capacity := by
  simp only [generateDaySlots, List.mem_filterMap] at hs
  obtain ⟨h, _, hcond⟩ := hs
  by_cases hc : hasConflict (dayStart + (h : ℚ)) (dayStart + (h : ℚ) + dur) existing
      center.capacity
  · rw [if_pos hc] at hcond; cases hcond
  · rw [if_neg hc] at hcond
    cases hcond
    simp only [hasConflict, decide_eq_true_eq, not_le] at hc
    · simpa using hc

/-- The slot-generation loop only ever emits slots that pass the capacity
check (accumulator members included). -/
theorem generateSlotsLoop_capacity (fuel : ℕ) (current endT : ℚ) (priority : String)
    (existing : List BookedInterval) (center : ServiceCenter) (dur : ℚ)
    (maxSlots : ℕ) (acc : List Slot)
    (hacc : ∀ s ∈ acc,
      countOverlappingAppointments s.start_time s.end_time existing < center.capacity)
    (s : Slot)
    (hs : s ∈ generateSlotsLoop fuel current endT priority existing center dur maxSlots acc) :
    countOverlappingAppointments s.start_time s.end_time existing < center.capacity := by
  induction fuel generalizing current acc with
  | zero => exact hacc s hs
  | succ n ih =>
    unfold generateSlotsLoop at hs
    split at hs
    · split at hs
      · exact ih (current + 24) acc hacc hs
      · dsimp only [] at hs
        set acc' := acc ++ generateDaySlots current existing center dur with hacc'
        have hacc'mem : ∀ t ∈ acc',
            countOverlappingAppointments t.start_time t.end_time existing < center.capacity := by
          intro t ht
          rw [hacc'] at ht
          rcases List.mem_append.mp ht with h | h
          · exact hacc t h
          · exact generateDaySlots_capacity current existing center dur t h
        split at hs
        · exact hacc'mem s (List.take_subset _ _ hs)
        · exact ih (current + 24) acc' hacc'mem hs
    · exact hacc s hs

/-- When every business-hour slot of a day is at capacity the day
contributes nothing. -/
theorem generateDaySlots_empty (dayStart : ℚ) (existing : List BookedInterval)
    (center : ServiceCenter) (dur : ℚ)
    (H : ∀ h ∈ businessHoursList,
      center.capacity ≤
        countOverlappingAppointments (dayStart + (h : ℚ)) (dayStart + (h : ℚ) + dur) existing) :
    generateDaySlots dayStart existing center dur = [] := by
  rw [generateDaySlots, List.filterMap_eq_nil_iff]
  intro a ha
  dsimp only []
  rw [if_pos]
  simp only [hasConflict, decide_eq_true_eq]
  exact H a ha

/-- When every business-hour slot of every day the loop can reach (24-hour
steps from `current`, within the window bound) is at capacity, the loop
returns the empty list. -/
theorem generateSlotsLoop_empty (fuel : ℕ) (current endT : ℚ) (priority : String)
    (existing : List BookedInterval) (center : ServiceCenter) (dur : ℚ) (maxSlots : ℕ)
    (H : ∀ k : ℕ, current + 24 * k ≤ endT → ∀ h ∈ businessHoursList,
      center.capacity ≤
        countOverlappingAppointments (current + 24 * k + (h : ℚ))
          (current + 24 * k + (h : ℚ) + dur) existing) :
    generateSlotsLoop fuel current endT priority existing center dur maxSlots [] = [] := by
  induction fuel generalizing current with
  | zero => rfl
  | succ n ih =>
    unfold generateSlotsLoop
    split
    · rename_i hcond
      have Hshift : ∀ k : ℕ, (current + 24) + 24 * k ≤ endT → ∀ h ∈ businessHoursList,
          center.capacity ≤
            countOverlappingAppointments ((current + 24) + 24 * k + (h : ℚ))
              ((current + 24) + 24 * k + (h : ℚ) + dur) existing := by
        intro k hk h hh
        have h1 : current + 24 * ((k : ℕ) + 1 : ℕ) ≤ endT := by push_cast; push_cast at hk; linarith
        have := H (k + 1) h1 h hh
        have harith : current + 24 * ((k : ℕ) + 1 : ℕ) + (h : ℚ)
            = (current + 24) + 24 * k + (h : ℚ) := by push_cast; ring
        rw [harith] at this
        exact this
      split
      · exact ih (current + 24) Hshift
      · have hday : generateDaySlots current existing center dur = [] := by
          apply generateDaySlots_empty
          intro h hh
          have h0 : current + 24 * ((0 : ℕ) : ℚ) ≤ endT := by push_cast; linarith [hcond.1]
          have := H 0 h0 h hh
          have harith : current + 24 * ((0 : ℕ) : ℚ) + (h : ℚ) = current + (h : ℚ) := by
            push_cast; ring
          rw [harith] at this
          exact this
        rw [hday]
        simp only [List.append_nil, List.nil_append]
        split
        · simp
        · exact ih (current + 24) Hshift
    · rfl

/-- C8: every candidate slot returned by `find_available_slots` has
strictly fewer than the center's capacity existing bookings overlapping its
`[start, end)` interval at generation time; and when every business-hour
slot in the urgency-determined search window is already at capacity, the
result is the empty list, not an error. -/
theorem c8_capacity_respected :
    (∀ (now : ℚ) (center : ServiceCenter) (existing : List BookedInterval)
        (diag : DiagnosticReport) (maxSlots : ℕ) (s : Slot),
        s ∈ findAvailableSlots now center existing diag maxSlots →
        countOverlappingAppointments s.start_time s.end_time existing < center.capacity) ∧
    (∀ (now : ℚ) (center : ServiceCenter) (existing : List BookedInterval)
        (diag : DiagnosticReport) (maxSlots : ℕ),
        (∀ d : ℤ, (⌊now / 24⌋ : ℤ) ≤ d →
          ((24 * d : ℤ) : ℚ) ≤ (getSearchWindow diag.urgency now).endTime →
          ∀ h ∈ businessHoursList,
            center.capacity ≤
              countOverlappingAppointments (((24 * d : ℤ) : ℚ) + (h : ℚ))
                (((24 * d : ℤ) : ℚ) + (h : ℚ) + diag.total_estimated_downtime_hours) existing) →
        findAvailableSlots now center existing diag maxSlots = []) := by
  constructor
  · intro now center existing diag maxSlots s hs
    exact generateSlotsLoop_capacity _ _ _ _ _ _ _ _ [] (by intro t ht; cases ht) s hs
  · intro now center existing diag maxSlots H
    unfold findAvailableSlots
    apply generateSlotsLoop_empty
    intro k hk h hh
    have hd : (⌊now / 24⌋ : ℤ) ≤ ⌊now / 24⌋ + (k : ℤ) := by
      have : (0 : ℤ) ≤ (k : ℤ) := Int.natCast_nonneg k
      linarith
    have harith : (24 : ℚ) * ((⌊now / 24⌋ : ℤ) : ℚ) + 24 * (k : ℚ)
        = ((24 * (⌊now / 24⌋ + (k : ℤ)) : ℤ) : ℚ) := by push_cast; ring
    have hbound : ((24 * (⌊now / 24⌋ + (k : ℤ)) : ℤ) : ℚ)
        ≤ (getSearchWindow diag.urgency now).endTime := by
      rw [← harith]; exact hk
    have := H (⌊now / 24⌋ + (k : ℤ)) hd hbound h hh
    rw [← harith] at this
    exact this

/-- C8 witness: part one applied to the 8:00 slot generated for an
immediate-urgency diagnosis over an empty booking table; part two applied
to a center of capacity zero, where every slot is trivially at capacity. -/
theorem c8_witness :
    countOverlappingAppointments
        (8 : ℚ) (10 : ℚ) ([] : List BookedInterval) < sampleCenter.capacity ∧
    findAvailableSlots 0 {sampleCenter with capacity := 0} [] sampleDiag 5 = [] :=
  ⟨by
    have hmem : ({ start_time := 8, end_time := 10, duration_hours := 2,
                   service_center_id := 1,
                   service_center_name := "Main Service Center",
                   available_capacity := 10 } : Slot)
        ∈ findAvailableSlots 0 sampleCenter [] sampleDiag 5 := by decide
    simpa using c8_capacity_respected.1 0 sampleCenter [] sampleDiag 5 _ hmem,
   c8_capacity_respected.2 0 {sampleCenter with capacity := 0} [] sampleDiag 5
     (fun _ _ _ _ _ => Nat.zero_le _)⟩

/-! ### C9: the orchestrator's top-level catch -/

/-- C9: whenever the workflow sequence (customer/vehicle lookup, diagnosis,
slot search, customer contact) raises, `process_alert` catches it: the
stored context is the `FAILED` context carrying the error message in its
`errors` list, a `workflow_failed` audit row is written, the retry count
stays 0 and no other side effect (appointments, conversations) happens —
and `process_alert` returns a state rather than propagating, as its type
shows. -/
theorem c9_exceptions_caught (env : MasterEnv) (now : ℚ) (alert : Alert)
    (st : SystemState) (e : String)
    (hrun : executeWorkflow env now (slaContext alert now) (registerStep alert now st)
      = .error e) :
    getWorkflowStatus (mkWorkflowId alert.vehicle_id now) (processAlert env now alert st)
        = some (failedContext alert now e) ∧
    (failedContext alert now e).state = .failed ∧
    (failedContext alert now e).errors = [e] ∧
    (failedContext alert now e).retry_count = 0 ∧
    mkAudit (failedContext alert now e) "workflow_failed" now
        ∈ (processAlert env now alert st).audit_log ∧
    (processAlert env now alert st).appointments = st.appointments ∧
    (processAlert env now alert st).active_conversations = st.active_conversations := by
  unfold getWorkflowStatus processAlert
  simp only [hrun]
  refine ⟨alistGet_insert_self _ _ _, ?_, ?_, ?_, ?_, ?_, ?_⟩
  · rfl
  · simp [failedContext, slaContext, initialContext]
  · rfl
  · simp [registerStep]
  · simp [registerStep]
  · simp [registerStep]

/-- C9 witness: the lookup-failure environment — `_execute_workflow` raises
because no customer/vehicle record exists — leaves the workflow `FAILED`
with the message recorded and a `workflow_failed` audit row. -/
theorem c9_witness :
    getWorkflowStatus (mkWorkflowId sampleAlert.vehicle_id 0)
        (processAlert failEnv 0 sampleAlert emptySystem)
        = some (failedContext sampleAlert 0 failMsg) ∧
    (failedContext sampleAlert 0 failMsg).state = .failed ∧
    (failedContext sampleAlert 0 failMsg).errors = [failMsg] ∧
    (failedContext sampleAlert 0 failMsg).retry_count = 0 ∧
    mkAudit (failedContext sampleAlert 0 failMsg) "workflow_failed" 0
        ∈ (processAlert failEnv 0 sampleAlert emptySystem).audit_log ∧
    (processAlert failEnv 0 sampleAlert emptySystem).appointments = emptySystem.appointments ∧
    (processAlert failEnv 0 sampleAlert emptySystem).active_conversations
        = emptySystem.active_conversations :=
  c9_exceptions_caught failEnv 0 sampleAlert emptySystem failMsg (by decide)

/-! ### C10: unknown ids are rejected without mutation -/

/-- C10: on a workflow id absent from the registry each handler returns the
`Workflow not found` dictionary with the state untouched and
`get_workflow_status` returns `None`; on a conversation id absent from the
conversation registry `process_response` returns `Conversation not found`
without mutating any conversation. -/
theorem c10_missing_ids (env : MasterEnv) (now : ℚ) (wfId inp data : String)
    (fd : FeedbackSubmission) (st : SystemState)
    (convs : List (String × ConversationContext)) (cid : String) :
    (alistGet wfId st.active_workflows = none →
      handleCustomerResponse env now wfId inp st = .ok (st, .err "Workflow not found") ∧
      handleServiceCompletion env now wfId data st = .ok (st, .err "Workflow not found") ∧
      handleFeedbackSubmission env now wfId fd st = .ok (st, .err "Workflow not found") ∧
      getWorkflowStatus wfId st = none) ∧
    (alistGet cid convs = none →
      processResponseReg convs (some cid) inp = .ok (convs, .fail "Conversation not found")) := by
  constructor
  · intro h
    refine ⟨?_, ?_, ?_, h⟩
    · unfold handleCustomerResponse
      rw [h]
    · unfold handleServiceCompletion
      rw [h]
    · unfold handleFeedbackSubmission
      rw [h]
  · intro h
    unfold processResponseReg
    dsimp only []
    rw [h]

/-- C10 witness: the empty registries. -/
theorem c10_witness :
    (handleCustomerResponse failEnv 0 "wf_x" "hello" emptySystem
        = .ok (emptySystem, .err "Workflow not found") ∧
      handleServiceCompletion failEnv 0 "wf_x" "done" emptySystem
        = .ok (emptySystem, .err "Workflow not found") ∧
      handleFeedbackSubmission failEnv 0 "wf_x" sampleFeedback emptySystem
        = .ok (emptySystem, .err "Workflow not found") ∧
      getWorkflowStatus "wf_x" emptySystem = none) ∧
    processResponseReg [] (some "conv_x") "hello"
        = .ok ([], .fail "Conversation not found") :=
  ⟨(c10_missing_ids failEnv 0 "wf_x" "hello" "done" sampleFeedback emptySystem [] "conv_x").1
      (by decide),
   (c10_missing_ids failEnv 0 "wf_x" "hello" "done" sampleFeedback emptySystem [] "conv_x").2
      (by decide)⟩

end PMI
